import Mathlib

/-!
# Ten-pin bowling simulator: embedding and checked properties

A shallow embedding of `bowling_game.c`, `frame_validator.c` and
`score_calculator.c`.

Modelling conventions
* The C array `struct frame_results frames[MAX_FRAMES]` is a `List frame_results`;
  every array access is an `Option`-returning lookup, so an access outside the
  list makes the embedded function return `none`.
* C `int` is 32 bits wide.  A field is an `Int`, and every `int` sum or
  difference that the validator, the scorer and the report compute from fields
  of an arbitrary game is reduced by `to_int`, the explicit two's-complement
  wrap modulo 2^32 into `[INT_MIN, INT_MAX]`.  In `ball` and `throw_frame` the
  operands are pin counts between 0 and 10 and no reduction is needed.
* `rand()` is a stream of non-negative draws `draws : Nat → Nat` together with
  the index `pos` of the next draw; a function that calls `rand()` returns the
  advanced index.
* A `for (i = 0; i < N; i++)` loop is a recursion on the number of iterations
  still to run, carrying `i`; an early `return` ends the recursion.
-/

namespace Bowling

/-! ## bowling_game.h -/

def MAX_FRAMES : Nat := 10
def MAX_PINS : Int := 10
def STRIKE_SCORE : Int := 10

/-- Least value of a 32-bit `int`. -/
def INT_MIN : Int := -2147483648

/-- Greatest value of a 32-bit `int`. -/
def INT_MAX : Int := 2147483647

/-- The value a 32-bit two's-complement `int` holds when the exact result of an
addition or subtraction is `x`: `x` reduced modulo 2^32 into
`[INT_MIN, INT_MAX]`. -/
def to_int (x : Int) : Int := (x + 2147483648) % 4294967296 - 2147483648

inductive bowling_error where
  | NO_ERROR
  | INCOMPLETE_GAME
  | INVALID_PINS
  | INVALID_FRAME_TYPE
  deriving DecidableEq

inductive frame_type where
  | STRIKE
  | SPARE
  | OPEN
  | LAST_FRAME
  | UNDEFINED
  deriving DecidableEq

structure frame_results where
  type : frame_type
  first_ball : Int
  second_ball : Int
  third_ball : Int
  score : Int
  deriving DecidableEq

open bowling_error frame_type

/-! ## bowling_game.c -/

/-- C remainder `a % b` on `int`: truncated towards zero, and undefined
(`none`) when the divisor is zero. -/
def c_rem (a b : Int) : Option Int :=
  if b = 0 then none else some (Int.tmod a b)

/-- Function `ball(pins)`, lines 156-178.  The first `rand()` is `draws pos`; the
fallback branch calls `rand()` a second time.  The dead `if (0) return 10;`
has no effect.  Returns the pins knocked down and the next draw index. -/
def ball (draws : Nat → Nat) (pins : Int) (pos : Nat) : Option (Int × Nat) :=
  match c_rem (draws pos) 100 with
  | none => none
  | some r =>
    if pins = MAX_PINS then
      if r < 20 then some (pins, pos + 1)
      else if r < 35 then some (pins - 1, pos + 1)
      else if r < 50 then some (pins - 2, pos + 1)
      else
        match c_rem (draws (pos + 1)) (pins + 1) with
        | none => none
        | some v => some (v, pos + 2)
    else
      if r < 30 then some (pins, pos + 1)
      else if r < 50 then some (if pins ≥ 1 then pins - 1 else 0, pos + 1)
      else if r < 80 then some (if pins ≥ 2 then pins - 2 else 0, pos + 1)
      else
        match c_rem (draws (pos + 1)) (pins + 1) with
        | none => none
        | some v => some (v, pos + 2)

/-- Tenth-frame branch of `throw_frame`, lines 115-131, acting on the record
`frames[frame]`. -/
def throw_tenth (draws : Nat → Nat) (f : frame_results) (pos : Nat) :
    Option (frame_results × Nat) :=
  let f := { f with type := LAST_FRAME }
  match ball draws MAX_PINS pos with
  | none => none
  | some (b1, pos) =>
    let f := { f with first_ball := b1 }
    if f.first_ball = STRIKE_SCORE then
      match ball draws MAX_PINS pos with
      | none => none
      | some (b2, pos) =>
        let f := { f with second_ball := b2 }
        if f.second_ball = STRIKE_SCORE then
          match ball draws MAX_PINS pos with
          | none => none
          | some (b3, pos) => some ({ f with third_ball := b3 }, pos)
        else
          match ball draws (MAX_PINS - f.second_ball) pos with
          | none => none
          | some (b3, pos) => some ({ f with third_ball := b3 }, pos)
    else
      match ball draws (MAX_PINS - f.first_ball) pos with
      | none => none
      | some (b2, pos) =>
        let f := { f with second_ball := b2 }
        some ({ f with third_ball := 0 }, pos)

/-- Regular-frame branch of `throw_frame`, lines 136-150, acting on the record
`frames[frame]`. -/
def throw_regular (draws : Nat → Nat) (f : frame_results) (pos : Nat) :
    Option (frame_results × Nat) :=
  match ball draws MAX_PINS pos with
  | none => none
  | some (b1, pos) =>
    let f := { f with first_ball := b1 }
    if f.first_ball = STRIKE_SCORE then
      let f := { f with second_ball := 0 }
      some ({ f with type := STRIKE }, pos)
    else
      match ball draws (MAX_PINS - f.first_ball) pos with
      | none => none
      | some (b2, pos) =>
        let f := { f with second_ball := b2 }
        if f.second_ball = MAX_PINS - f.first_ball then
          some ({ f with type := SPARE }, pos)
        else
          some ({ f with type := OPEN }, pos)

/-- Function `throw_frame(frames, frame)`, lines 108-153.  Every read and write of the
body addresses `frames[frame]`; the record is stored back after the branch. -/
def throw_frame (draws : Nat → Nat) (frames : List frame_results) (frame : Nat)
    (pos : Nat) : Option (List frame_results × Nat) :=
  match frames[frame]? with
  | none => none
  | some f =>
    if f.type = UNDEFINED then
      if frame = 9 then
        match throw_tenth draws f pos with
        | none => none
        | some (g, pos) => some (frames.set frame g, pos)
      else
        match throw_regular draws f pos with
        | none => none
        | some (g, pos) => some (frames.set frame g, pos)
    else some (frames, pos)

/-- The loop of `play_game`: `n` iterations remain, the next index is `i`. -/
def play_game_from (draws : Nat → Nat) :
    Nat → Nat → List frame_results → Nat → Option (List frame_results × Nat)
  | 0, _, frames, pos => some (frames, pos)
  | n + 1, i, frames, pos =>
    match throw_frame draws frames i pos with
    | none => none
    | some (frames, pos) => play_game_from draws n (i + 1) frames pos

/-- Function `play_game(frames)`, lines 100-104: `for (int i = 0; i < 10; i++)`. -/
def play_game (draws : Nat → Nat) (frames : List frame_results) (pos : Nat) :
    Option (List frame_results × Nat) :=
  play_game_from draws 10 0 frames pos

/-- The loop of `init_game_results`: `n` iterations remain, the next index is `i`. -/
def init_game_results_from : Nat → Nat → List frame_results → Option (List frame_results)
  | 0, _, frames => some frames
  | n + 1, i, frames =>
    match frames[i]? with
    | none => none
    | some f =>
      let f := { f with type := UNDEFINED }
      let f := { f with first_ball := 0 }
      let f := { f with second_ball := 0 }
      let f := { f with third_ball := 0 }
      let f := { f with score := 0 }
      init_game_results_from n (i + 1) (frames.set i f)

/-- Function `init_game_results(frames)`, lines 182-192. -/
def init_game_results (frames : List frame_results) : Option (List frame_results) :=
  init_game_results_from MAX_FRAMES 0 frames

/-! ## frame_validator.c -/

/-- Body of the loop of `validate_game` for index `i`, lines 43-109, on the
record `frames[i]`.  `some e` is `return e`; `none` means the body ran to its
end and the loop goes on.  In the tenth-frame branch the source has no braces
after `if (frames[i].first_ball == MAX_PINS)`, so the `else` block of line 93
belongs to the `if` of line 90, and the `else` of line 104 to the `if` of
line 102.  The `int` sums and the difference are reduced by `to_int`. -/
def validate_frame (i : Nat) (f : frame_results) : Option bowling_error :=
  if f.type = UNDEFINED then some INCOMPLETE_GAME
  else if i < 9 then
    if f.first_ball < 0 ∨ f.first_ball > MAX_PINS then some INVALID_PINS
    else
      match f.type with
      | STRIKE =>
        if f.first_ball ≠ MAX_PINS ∨ f.second_ball ≠ 0 then some INVALID_FRAME_TYPE
        else none
      | SPARE =>
        if to_int (f.first_ball + f.second_ball) ≠ MAX_PINS then some INVALID_FRAME_TYPE
        else none
      | OPEN =>
        if to_int (f.first_ball + f.second_ball) ≥ MAX_PINS then some INVALID_FRAME_TYPE
        else none
      | _ => some INVALID_FRAME_TYPE
  else
    if f.first_ball < 0 ∨ f.first_ball > MAX_PINS then some INVALID_PINS
    else if f.first_ball = MAX_PINS then
      if f.second_ball < 0 ∨ f.second_ball > MAX_PINS ∨
          f.third_ball < 0 ∨ f.third_ball > MAX_PINS then some INVALID_PINS
      else
        if f.second_ball < 0 ∨ f.second_ball > to_int (MAX_PINS - f.first_ball) then
          some INVALID_PINS
        else if to_int (f.first_ball + f.second_ball) = MAX_PINS then
          if f.third_ball < 0 ∨ f.third_ball > MAX_PINS then some INVALID_PINS
          else
            if f.third_ball ≠ 0 then some INVALID_PINS
            else none
        else none
    else none

/-- The loop of `validate_game`: `n` iterations remain, the next index is `i`. -/
def validate_game_from (frames : List frame_results) : Nat → Nat → Option bowling_error
  | 0, _ => some NO_ERROR
  | n + 1, i =>
    match frames[i]? with
    | none => none
    | some f =>
      match validate_frame i f with
      | some e => some e
      | none => validate_game_from frames n (i + 1)

/-- Function `validate_game(frames)`, lines 40-112. -/
def validate_game (frames : List frame_results) : Option bowling_error :=
  validate_game_from frames MAX_FRAMES 0

/-! ## score_calculator.c -/

/-- Body of the loop of `calculate_game_scores` for index `i`, lines 76-100.
The first component is `some e` for `return e` and `none` when the loop goes
on; the second is the array after the body.  `x += e` is `x = x + (e)`, and
every `int` sum is reduced by `to_int`. -/
def score_frame (frames : List frame_results) (i : Nat) :
    Option (Option bowling_error × List frame_results) :=
  match frames[i]? with
  | none => none
  | some fi =>
    if i < 9 then
      if fi.type = STRIKE then
        let fi := { fi with score := STRIKE_SCORE }
        let frames := frames.set i fi
        if i = 8 then
          match frames[i + 1]? with
          | none => none
          | some f1 =>
            some (none, frames.set i
              { fi with score := to_int (fi.score + to_int (f1.first_ball + f1.second_ball)) })
        else
          match frames[i + 1]?, frames[i + 2]? with
          | some f1, some f2 =>
            some (none, frames.set i
              { fi with score := to_int (fi.score + to_int (f1.first_ball + f2.first_ball)) })
          | _, _ => none
      else if fi.type = SPARE then
        let fi := { fi with score := STRIKE_SCORE }
        let frames := frames.set i fi
        match frames[i + 1]? with
        | none => none
        | some f1 =>
          some (none, frames.set i { fi with score := to_int (fi.score + f1.first_ball) })
      else if fi.type = OPEN then
        some (none, frames.set i { fi with score := to_int (fi.first_ball + fi.second_ball) })
      else some (some INVALID_FRAME_TYPE, frames)
    else
      some (none, frames.set i
        { fi with score := to_int (to_int (fi.first_ball + fi.second_ball) + fi.third_ball) })

/-- The loop of `calculate_game_scores`: `n` iterations remain, the next index
is `i`. -/
def calculate_game_scores_from :
    Nat → Nat → List frame_results → Option (bowling_error × List frame_results)
  | 0, _, frames => some (NO_ERROR, frames)
  | n + 1, i, frames =>
    match score_frame frames i with
    | none => none
    | some (some e, frames) => some (e, frames)
    | some (none, frames) => calculate_game_scores_from n (i + 1) frames

/-- Function `calculate_game_scores(frames)`, lines 70-103: the returned code and the
array as the call leaves it. -/
def calculate_game_scores (frames : List frame_results) :
    Option (bowling_error × List frame_results) :=
  calculate_game_scores_from MAX_FRAMES 0 frames

/-! ## game_display.c -/

/-- The running total of `report_game_scores`, lines 78-83, after the last
frame: `total += frames[i].score` for `i = 0 .. MAX_FRAMES - 1`, an `int` sum
reduced by `to_int`. -/
def report_total_from (frames : List frame_results) : Nat → Nat → Int → Option Int
  | 0, _, total => some total
  | n + 1, i, total =>
    match frames[i]? with
    | none => none
    | some f => report_total_from frames n (i + 1) (to_int (total + f.score))

def report_total (frames : List frame_results) : Option Int :=
  report_total_from frames MAX_FRAMES 0 0

/-! ## Concrete games used as test inputs -/

def mk_strike : frame_results := ⟨STRIKE, 10, 0, 0, 0⟩
def mk_open (a b : Int) : frame_results := ⟨OPEN, a, b, 0, 0⟩
def mk_spare (a b : Int) : frame_results := ⟨SPARE, a, b, 0, 0⟩
def mk_last (a b c : Int) : frame_results := ⟨LAST_FRAME, a, b, c, 0⟩
def blank_frame : frame_results := ⟨UNDEFINED, 0, 0, 0, 0⟩

/-- Scenario A of the specification: nine strikes and a tenth frame (10,10,10). -/
def perfect_game : List frame_results :=
  List.replicate 9 mk_strike ++ [mk_last 10 10 10]

/-- Scenario C of the specification: Spare(6,4), Open(3,0), then zeros. -/
def scenario_c : List frame_results :=
  [mk_spare 6 4, mk_open 3 0] ++ List.replicate 7 (mk_open 0 0) ++ [mk_last 0 0 0]

/-- The record at index `i` of a game; `blank_frame` outside the array.  Used
only to state properties of games whose length is known. -/
def frame_at (frames : List frame_results) (i : Nat) : frame_results :=
  frames.getD i blank_frame

/-! ## Properties the specification states, as predicates -/

/-- The regular-frame invariant of the specification (section 3): the recorded
type matches the pins, and the pins are legal. -/
def spec_regular_frame (f : frame_results) : Prop :=
  (f.type = STRIKE ∧ f.first_ball = 10 ∧ f.second_ball = 0) ∨
  (f.type = SPARE ∧ f.first_ball + f.second_ball = 10 ∧
    0 ≤ f.first_ball ∧ f.first_ball < 10) ∨
  (f.type = OPEN ∧ f.first_ball + f.second_ball < 10 ∧
    0 ≤ f.first_ball ∧ 0 ≤ f.second_ball)

/-- The tenth-frame pin ranges of the specification (section 3), which are also
the rules listed in the doc comment of `validate_game`. -/
def spec_tenth_pins (f : frame_results) : Prop :=
  0 ≤ f.first_ball ∧ f.first_ball ≤ 10 ∧
  (if f.first_ball = 10 then
    0 ≤ f.second_ball ∧ f.second_ball ≤ 10 ∧ 0 ≤ f.third_ball ∧ f.third_ball ≤ 10
  else
    0 ≤ f.second_ball ∧ f.second_ball ≤ 10 - f.first_ball ∧
    (if f.first_ball + f.second_ball = 10 then 0 ≤ f.third_ball ∧ f.third_ball ≤ 10
     else f.third_ball = 0))

/-- A well-formed, fully played game in the sense of the specification. -/
def spec_well_formed (frames : List frame_results) : Prop :=
  frames.length = 10 ∧
  (∀ i, i < 9 → spec_regular_frame (frame_at frames i)) ∧
  (frame_at frames 9).type = LAST_FRAME ∧ spec_tenth_pins (frame_at frames 9)

instance (f : frame_results) : Decidable (spec_regular_frame f) := by
  unfold spec_regular_frame; infer_instance

instance (f : frame_results) : Decidable (spec_tenth_pins f) := by
  unfold spec_tenth_pins; infer_instance

instance (frames : List frame_results) : Decidable (spec_well_formed frames) := by
  unfold spec_well_formed; infer_instance

/-- Nine open frames without pins and a tenth frame (3,12,7). -/
def overfull_tenth_game : List frame_results :=
  List.replicate 9 (mk_open 0 0) ++ [mk_last 3 12 7]

/-- Spare(10,0), Open(10,-1), Open(3,-5), then zeros. -/
def odd_regular_game : List frame_results :=
  [mk_spare 10 0, mk_open 10 (-1), mk_open 3 (-5)] ++ List.replicate 6 (mk_open 0 0) ++
    [mk_last 0 0 0]

/-- Nine open frames without pins and a tenth frame (0,200,200). -/
def huge_tenth_game : List frame_results :=
  List.replicate 9 (mk_open 0 0) ++ [mk_last 0 200 200]

/-- Open(0,-5), then zeros. -/
def negative_open_game : List frame_results :=
  [mk_open 0 (-5)] ++ List.replicate 8 (mk_open 0 0) ++ [mk_last 0 0 0]

/-- Strike, Open(3,4), Open(5,0), then zeros. -/
def strike_then_open_game : List frame_results :=
  [mk_strike, mk_open 3 4, mk_open 5 0] ++ List.replicate 6 (mk_open 0 0) ++
    [mk_last 0 0 0]

/-- The draw stream on which `rand()` always returns 0. -/
def zero_draws : Nat → Nat := fun _ => 0

/-- A game of ten blank records. -/
def blank_game : List frame_results := List.replicate 10 blank_frame

/-- The draw stream 0, 1, 2, ... -/
def counting_draws : Nat → Nat := fun n => n

/-- Scenario D of the specification: frame 5 left Undefined, the others played. -/
def scenario_d : List frame_results :=
  List.replicate 5 (mk_open 3 4) ++ [blank_frame] ++ List.replicate 3 (mk_open 3 4) ++
    [mk_last 3 4 0]

/-- Nine open frames (3,4) and a tenth frame (3,4,0) recorded with type Open. -/
def open_tenth_game : List frame_results :=
  List.replicate 9 (mk_open 3 4) ++ [mk_open 3 4]

/-- Frame 1 with first ball 11 and recorded as a Strike, the rest open frames. -/
def eleven_pins_game : List frame_results :=
  [mk_open 3 4, ⟨STRIKE, 11, 0, 0, 0⟩] ++ List.replicate 7 (mk_open 3 4) ++ [mk_last 3 4 0]

/-! ## Auxiliary definitions for the scorer -/

/-- A record with its `score` cleared: the fields the scorer reads. -/
def unscored (f : frame_results) : frame_results := { f with score := 0 }

/-- The value the loop body of `calculate_game_scores` stores in
`frames[i].score` when it does not return, read off the branches of the body. -/
def expected_score (frames : List frame_results) (i : Nat) : Int :=
  if i < 9 then
    if (frame_at frames i).type = STRIKE then
      if i = 8 then
        to_int (STRIKE_SCORE +
          to_int ((frame_at frames (i + 1)).first_ball +
            (frame_at frames (i + 1)).second_ball))
      else
        to_int (STRIKE_SCORE +
          to_int ((frame_at frames (i + 1)).first_ball +
            (frame_at frames (i + 2)).first_ball))
    else if (frame_at frames i).type = SPARE then
      to_int (STRIKE_SCORE + (frame_at frames (i + 1)).first_ball)
    else to_int ((frame_at frames i).first_ball + (frame_at frames i).second_ball)
  else
    to_int (to_int ((frame_at frames i).first_ball + (frame_at frames i).second_ball) +
      (frame_at frames i).third_ball)

/-- The types the scorer accepts on a regular frame. -/
def scorable (t : frame_type) : Prop := t = STRIKE ∨ t = SPARE ∨ t = OPEN

instance (t : frame_type) : Decidable (scorable t) := by
  unfold scorable; infer_instance

/-- Index `k` is where the scorer's loop ends on `frames`: 10 when every regular
frame has a type it accepts, else the first regular frame whose type it does
not accept. -/
def stops_at (frames : List frame_results) (k : Nat) : Prop :=
  (∀ j, j < k → j < 9 → scorable (frame_at frames j).type) ∧
  (k = 10 ∨ (k < 9 ∧ ¬ scorable (frame_at frames k).type))

/-- What the regular-frame branch of `throw_frame` leaves on a record. -/
def thrown_regular (g : frame_results) : Prop :=
  0 ≤ g.first_ball ∧ 0 ≤ g.second_ball ∧
    ((g.type = STRIKE ∧ g.first_ball = 10 ∧ g.second_ball = 0) ∨
     (g.type = SPARE ∧ g.first_ball + g.second_ball = 10 ∧ g.first_ball < 10) ∨
     (g.type = OPEN ∧ g.first_ball + g.second_ball < 10 ∧ g.first_ball < 10))

/-- What the tenth-frame branch of `throw_frame` leaves on a record. -/
def thrown_tenth (g : frame_results) : Prop :=
  g.type = LAST_FRAME ∧ 0 ≤ g.first_ball ∧ g.first_ball ≤ 10 ∧
    (g.first_ball = 10 →
      0 ≤ g.second_ball ∧ g.second_ball ≤ 10 ∧ 0 ≤ g.third_ball ∧ g.third_ball ≤ 10 ∧
      (g.second_ball < 10 → g.third_ball ≤ 10 - g.second_ball)) ∧
    (g.first_ball < 10 →
      0 ≤ g.second_ball ∧ g.second_ball ≤ 10 - g.first_ball ∧ g.third_ball = 0)

/-- Nine open frames (3,4) and a tenth frame (10,0,0). -/
def lone_strike_tenth_game : List frame_results :=
  List.replicate 9 (mk_open 3 4) ++ [mk_last 10 0 0]

/-- Open(5, INT_MAX), then zeros. -/
def overflow_open_game : List frame_results :=
  [mk_open 5 2147483647] ++ List.replicate 8 (mk_open 0 0) ++ [mk_last 0 0 0]

/-! ## The validator, frame by frame -/

/-- Every stored result is inside the `int` range. -/
theorem to_int_range (x : Int) : INT_MIN ≤ to_int x ∧ to_int x ≤ INT_MAX := by
  unfold to_int INT_MIN INT_MAX
  omega

theorem validate_frame_ne_ok (i : Nat) (f : frame_results) :
    validate_frame i f ≠ some NO_ERROR := by
  unfold validate_frame
  cases f.type <;> simp <;> repeat (first | split | simp)

/-- What the regular-frame branch of the validator checks. -/
theorem validate_frame_regular (i : Nat) (f : frame_results) (hi : i < 9) :
    validate_frame i f = none ↔
      0 ≤ f.first_ball ∧ f.first_ball ≤ 10 ∧
      ((f.type = STRIKE ∧ f.first_ball = 10 ∧ f.second_ball = 0) ∨
       (f.type = SPARE ∧ to_int (f.first_ball + f.second_ball) = 10) ∨
       (f.type = OPEN ∧ to_int (f.first_ball + f.second_ball) < 10)) := by
  obtain ⟨t, a, b, c, s⟩ := f
  cases t <;> simp only [validate_frame, hi, MAX_PINS] <;> simp <;> split_ifs <;> simp <;> omega

/-- What the tenth-frame branch of the validator checks, as its `if`/`else`
chain binds. -/
theorem validate_frame_tenth (i : Nat) (f : frame_results) (hi : ¬ i < 9) :
    validate_frame i f = none ↔
      f.type ≠ UNDEFINED ∧
      ((0 ≤ f.first_ball ∧ f.first_ball < 10) ∨
       (f.first_ball = 10 ∧ f.second_ball = 0 ∧ f.third_ball = 0)) := by
  obtain ⟨t, a, b, c, s⟩ := f
  cases t <;> simp only [validate_frame, hi, MAX_PINS, to_int] <;> simp <;> split_ifs <;>
    simp <;> omega

theorem validate_game_from_ok (frames : List frame_results) (n : Nat) :
    ∀ i, validate_game_from frames n i = some NO_ERROR ↔
      ∀ k, k < n → ∃ f, frames[i + k]? = some f ∧ validate_frame (i + k) f = none := by
  induction n with
  | zero => intro i; simp [validate_game_from]
  | succ n ih =>
    intro i
    rw [validate_game_from]
    constructor
    · intro h
      cases hf : frames[i]? with
      | none => simp [hf] at h
      | some f =>
        cases hv : validate_frame i f with
        | some e =>
          simp only [hf, hv] at h
          exact absurd (hv.trans h) (validate_frame_ne_ok i f)
        | none =>
          simp only [hf, hv] at h
          intro k hk
          cases k with
          | zero => exact ⟨f, by simpa using hf, by simpa using hv⟩
          | succ k =>
            have := (ih (i + 1)).1 h k (by omega)
            simpa [Nat.add_assoc, Nat.add_comm 1 k] using this
    · intro h
      obtain ⟨f, hf, hv⟩ := h 0 (by omega)
      simp only [Nat.add_zero] at hf hv
      simp only [hf, hv]
      refine (ih (i + 1)).2 ?_
      intro k hk
      have := h (k + 1) (by omega)
      simpa [Nat.add_assoc, Nat.add_comm 1 k] using this

/-- The validator accepts exactly the games each of whose ten frames passes the
loop body. -/
theorem validate_game_ok_iff (frames : List frame_results) :
    validate_game frames = some NO_ERROR ↔
      ∀ i, i < 10 → ∃ f, frames[i]? = some f ∧ validate_frame i f = none := by
  have := validate_game_from_ok frames MAX_FRAMES 0
  simpa [validate_game, MAX_FRAMES] using this

theorem frame_at_of_lookup {frames : List frame_results} {i : Nat} {f : frame_results}
    (h : frames[i]? = some f) : frame_at frames i = f := by
  simp [frame_at, List.getD, h]

theorem lookup_eq_frame_at {frames : List frame_results} {i : Nat}
    (h : i < frames.length) : frames[i]? = some (frame_at frames i) := by
  simp [frame_at, List.getD, List.getElem?_eq_getElem h]

/-! ## The scorer, frame by frame -/

theorem frame_at_set_self (frames : List frame_results) (i : Nat) (g : frame_results)
    (h : i < frames.length) : frame_at (frames.set i g) i = g := by
  simp [frame_at, List.getD, List.getElem?_set, h]

theorem frame_at_set_ne (frames : List frame_results) (i j : Nat) (g : frame_results)
    (h : i ≠ j) : frame_at (frames.set i g) j = frame_at frames j := by
  simp [frame_at, List.getD, List.getElem?_set_ne h]

/-- One run of the loop body on a ten-frame array. -/
theorem score_frame_eq (frames : List frame_results) (i : Nat)
    (hlen : frames.length = 10) (hi : i < 10) :
    score_frame frames i =
      if i < 9 ∧ ¬ scorable (frame_at frames i).type then
        some (some INVALID_FRAME_TYPE, frames)
      else
        some (none, frames.set i
          { frame_at frames i with score := expected_score frames i }) := by
  have h0 : frames[i]? = some (frame_at frames i) := lookup_eq_frame_at (by omega)
  unfold score_frame
  simp only [h0]
  by_cases h9 : i < 9
  · have h1 : frames[i + 1]? = some (frame_at frames (i + 1)) :=
      lookup_eq_frame_at (by omega)
    simp only [h9, if_true, true_and]
    by_cases hs : (frame_at frames i).type = STRIKE
    · by_cases h8 : i = 8
      · subst h8
        simp [hs, scorable, expected_score, h1, List.getElem?_set_ne, List.set_set]
      · have h2 : frames[i + 2]? = some (frame_at frames (i + 2)) :=
          lookup_eq_frame_at (by omega)
        simp [hs, h8, h9, scorable, expected_score, h1, h2, List.getElem?_set_ne,
          List.set_set]
    · by_cases hp : (frame_at frames i).type = SPARE
      · simp [hs, hp, h9, scorable, expected_score, h1, List.getElem?_set_ne,
          List.set_set]
      · by_cases ho : (frame_at frames i).type = OPEN
        · simp [hs, hp, ho, h9, scorable, expected_score]
        · simp [hs, hp, ho, scorable]
  · simp [h9, expected_score]

theorem frame_at_map_unscored (frames : List frame_results) (j : Nat) :
    frame_at (frames.map unscored) j = unscored (frame_at frames j) := by
  simp only [frame_at, List.getD_eq_getElem?_getD, List.getElem?_map]
  cases frames[j]? <;> rfl

theorem unscored_frame_at_congr {a b : List frame_results}
    (h : a.map unscored = b.map unscored) (j : Nat) :
    unscored (frame_at a j) = unscored (frame_at b j) := by
  rw [← frame_at_map_unscored, h, frame_at_map_unscored]

theorem type_congr {a b : List frame_results} (h : a.map unscored = b.map unscored)
    (j : Nat) : (frame_at a j).type = (frame_at b j).type := by
  have e := congrArg frame_results.type (unscored_frame_at_congr h j)
  exact e

theorem first_ball_congr {a b : List frame_results} (h : a.map unscored = b.map unscored)
    (j : Nat) : (frame_at a j).first_ball = (frame_at b j).first_ball := by
  have e := congrArg frame_results.first_ball (unscored_frame_at_congr h j)
  exact e

theorem second_ball_congr {a b : List frame_results} (h : a.map unscored = b.map unscored)
    (j : Nat) : (frame_at a j).second_ball = (frame_at b j).second_ball := by
  have e := congrArg frame_results.second_ball (unscored_frame_at_congr h j)
  exact e

theorem third_ball_congr {a b : List frame_results} (h : a.map unscored = b.map unscored)
    (j : Nat) : (frame_at a j).third_ball = (frame_at b j).third_ball := by
  have e := congrArg frame_results.third_ball (unscored_frame_at_congr h j)
  exact e

/-- The stored value depends only on the fields the scorer never writes. -/
theorem expected_score_congr {a b : List frame_results}
    (h : a.map unscored = b.map unscored) (j : Nat) :
    expected_score a j = expected_score b j := by
  simp only [expected_score, type_congr h, first_ball_congr h, second_ball_congr h,
    third_ball_congr h]

/-- Writing a score leaves every other field of every record as it was. -/
theorem map_unscored_set_score (frames : List frame_results) (i : Nat) (v : Int) :
    (frames.set i { frame_at frames i with score := v }).map unscored =
      frames.map unscored := by
  apply List.ext_getElem?
  intro j
  by_cases hij : i = j
  · subst hij
    by_cases hl : i < frames.length
    · have e : frames[i] = frame_at frames i := by
        simp [frame_at, List.getD_eq_getElem?_getD, List.getElem?_eq_getElem hl]
      simp [List.getElem?_set, hl, lookup_eq_frame_at hl, unscored, e]
    · rw [List.set_eq_of_length_le (by omega)]
  · simp [List.getElem?_set_ne hij]

/-- The loop of the scorer from index `i` on, on a ten-frame array whose
remaining regular frames all have a type the scorer accepts. -/
theorem calculate_game_scores_from_ok (n : Nat) :
    ∀ (i : Nat) (frames : List frame_results), i + n = 10 → frames.length = 10 →
      (∀ j, i ≤ j → j < 9 → scorable (frame_at frames j).type) →
      ∃ out, calculate_game_scores_from n i frames = some (NO_ERROR, out) ∧
        out.length = 10 ∧ out.map unscored = frames.map unscored ∧
        (∀ j, j < i → frame_at out j = frame_at frames j) ∧
        (∀ j, i ≤ j → j < 10 → (frame_at out j).score = expected_score frames j) := by
  induction n with
  | zero =>
    intro i frames hin hlen _
    exact ⟨frames, rfl, hlen, rfl, fun _ _ => rfl, fun j h1 h2 => by omega⟩
  | succ n ih =>
    intro i frames hin hlen hty
    have hi : i < 10 := by omega
    have hstep := score_frame_eq frames i hlen hi
    have hnot : ¬ (i < 9 ∧ ¬ scorable (frame_at frames i).type) := by
      rintro ⟨h9, hns⟩
      exact hns (hty i (Nat.le_refl i) h9)
    rw [if_neg hnot] at hstep
    have hmap := map_unscored_set_score frames i (expected_score frames i)
    obtain ⟨out, hout, holen, homap, hbefore, hafter⟩ :=
      ih (i + 1) (frames.set i { frame_at frames i with score := expected_score frames i })
        (by omega) (by simpa using hlen)
        (by
          intro j hj h9
          rw [type_congr hmap j]
          exact hty j (by omega) h9)
    refine ⟨out, ?_, holen, homap.trans hmap, ?_, ?_⟩
    · rw [calculate_game_scores_from, hstep]
      exact hout
    · intro j hj
      rw [hbefore j (by omega), frame_at_set_ne frames i j _ (by omega)]
    · intro j hij hj
      by_cases hEq : i = j
      · subst hEq
        rw [hbefore i (by omega), frame_at_set_self frames i _ (by omega)]
      · rw [hafter j (by omega) hj, expected_score_congr hmap j]

/-- A game the validator accepts has ten or more records, and each regular one
has a type the scorer accepts. -/
theorem scorable_of_valid {frames : List frame_results}
    (hval : validate_game frames = some NO_ERROR) (j : Nat) (hj : j < 9) :
    scorable (frame_at frames j).type := by
  obtain ⟨f, hf, hv⟩ := (validate_game_ok_iff frames).1 hval j (by omega)
  rw [frame_at_of_lookup hf]
  obtain ⟨_, _, h⟩ := (validate_frame_regular j f hj).1 hv
  rcases h with h | h | h
  · exact Or.inl h.1
  · exact Or.inr (Or.inl h.1)
  · exact Or.inr (Or.inr h.1)

/-- The total that `report_game_scores` reaches on a ten-frame array whose
scores lie between 0 and 30 is the sum of the ten `score` fields. -/
theorem report_total_eq (out : List frame_results) (h : out.length = 10)
    (hb : ∀ j, j < 10 → 0 ≤ (frame_at out j).score ∧ (frame_at out j).score ≤ 30) :
    report_total out = some
      ((frame_at out 0).score + (frame_at out 1).score + (frame_at out 2).score +
        (frame_at out 3).score + (frame_at out 4).score + (frame_at out 5).score +
        (frame_at out 6).score + (frame_at out 7).score + (frame_at out 8).score +
        (frame_at out 9).score) := by
  match out, h, hb with
  | [a0, a1, a2, a3, a4, a5, a6, a7, a8, a9], _, hb =>
    have b0 := hb 0 (by omega)
    have b1 := hb 1 (by omega)
    have b2 := hb 2 (by omega)
    have b3 := hb 3 (by omega)
    have b4 := hb 4 (by omega)
    have b5 := hb 5 (by omega)
    have b6 := hb 6 (by omega)
    have b7 := hb 7 (by omega)
    have b8 := hb 8 (by omega)
    have b9 := hb 9 (by omega)
    simp only [frame_at, List.getD_cons_zero, List.getD_cons_succ] at b0 b1 b2 b3 b4 b5 b6 b7 b8 b9
    simp only [report_total, report_total_from, MAX_FRAMES, frame_at, List.getD_cons_zero,
      List.getD_cons_succ, List.getElem?_cons_zero, List.getElem?_cons_succ, Option.some.injEq,
      to_int]
    omega

/-- Bounds on the value stored for one frame of an accepted game whose second
balls and tenth-frame bonus balls lie between 0 and 10. -/
theorem expected_score_bounds (frames : List frame_results)
    (hval : validate_game frames = some NO_ERROR)
    (hsecond : ∀ i, i < 9 →
      0 ≤ (frame_at frames i).second_ball ∧ (frame_at frames i).second_ball ≤ 10)
    (h9 : 0 ≤ (frame_at frames 9).second_ball ∧ (frame_at frames 9).second_ball ≤ 10 ∧
      0 ≤ (frame_at frames 9).third_ball ∧ (frame_at frames 9).third_ball ≤ 10)
    (j : Nat) (hj : j < 10) :
    0 ≤ expected_score frames j ∧ expected_score frames j ≤ 30 := by
  have hfirst : ∀ k, k < 10 →
      0 ≤ (frame_at frames k).first_ball ∧ (frame_at frames k).first_ball ≤ 10 := by
    intro k hk
    obtain ⟨f, hf, hv⟩ := (validate_game_ok_iff frames).1 hval k hk
    rw [frame_at_of_lookup hf]
    by_cases h : k < 9
    · obtain ⟨h0, h10, _⟩ := (validate_frame_regular k f h).1 hv
      exact ⟨h0, h10⟩
    · obtain ⟨_, h2⟩ := (validate_frame_tenth k f h).1 hv
      omega
  by_cases hj9 : j < 9
  · obtain ⟨f, hf, hv⟩ := (validate_game_ok_iff frames).1 hval j hj
    have hreg := (validate_frame_regular j f hj9).1 hv
    rw [← frame_at_of_lookup hf] at hreg
    have hs := hsecond j hj9
    have h1 := hfirst (j + 1) (by omega)
    simp only [expected_score, hj9, if_true, STRIKE_SCORE]
    obtain ⟨h0, h10, h⟩ := hreg
    rcases h with ⟨ht, _, _⟩ | ⟨ht, hsum⟩ | ⟨ht, hsum⟩
    · simp only [ht, if_true]
      by_cases h8 : j = 8
      · subst h8
        simp only [Nat.reduceAdd] at h1
        simp only [if_true, Nat.reduceAdd, to_int]
        omega
      · have h2 := hfirst (j + 2) (by omega)
        simp only [h8, if_false, to_int]
        omega
    · simp [ht]
      simp only [to_int]
      omega
    · simp [ht]
      simp only [to_int] at hsum ⊢
      omega
  · have hj' : j = 9 := by omega
    subst hj'
    have h1 := hfirst 9 (by omega)
    simp [expected_score]
    simp only [to_int]
    omega

/-! ## The pin generator and the frame engine -/

/-- On a rack of 0 to 10 pins `ball` returns, knocks down between 0 and `pins`
pins, and consumes one or two draws. -/
theorem ball_range (draws : Nat → Nat) (pins : Int) (pos : Nat)
    (h0 : 0 ≤ pins) (h10 : pins ≤ 10) :
    ∃ r pos2, ball draws pins pos = some (r, pos2) ∧ 0 ≤ r ∧ r ≤ pins ∧
      (pos2 = pos + 1 ∨ pos2 = pos + 2) := by
  have hne : pins + 1 ≠ 0 := by omega
  have hlo : 0 ≤ Int.tmod (draws (pos + 1)) (pins + 1) :=
    Int.tmod_nonneg (pins + 1) (Int.ofNat_nonneg (draws (pos + 1)))
  have hhi : Int.tmod (draws (pos + 1)) (pins + 1) < pins + 1 :=
    Int.tmod_lt_of_pos (draws (pos + 1)) (by omega)
  unfold ball c_rem
  simp only [hne, if_false, show (100 : Int) ≠ 0 by decide, MAX_PINS]
  split_ifs <;> refine ⟨_, _, rfl, ?_, ?_, ?_⟩ <;> omega

/-- The regular-frame branch on any record: it returns, and the record it
leaves is a Strike (10,0), a Spare summing to 10 or an Open frame below 10. -/
theorem throw_regular_ok (draws : Nat → Nat) (f : frame_results) (pos : Nat) :
    ∃ g pos2, throw_regular draws f pos = some (g, pos2) ∧
      g.third_ball = f.third_ball ∧ g.score = f.score ∧
      0 ≤ g.first_ball ∧ 0 ≤ g.second_ball ∧
      ((g.type = STRIKE ∧ g.first_ball = 10 ∧ g.second_ball = 0) ∨
       (g.type = SPARE ∧ g.first_ball + g.second_ball = 10 ∧ g.first_ball < 10) ∨
       (g.type = OPEN ∧ g.first_ball + g.second_ball < 10 ∧ g.first_ball < 10)) := by
  obtain ⟨b1, p1, hb1, h1lo, h1hi, _⟩ :=
    ball_range draws MAX_PINS pos (by decide) (by decide)
  simp only [MAX_PINS] at h1hi
  unfold throw_regular
  simp only [hb1]
  by_cases hs : b1 = STRIKE_SCORE
  · simp only [hs, if_true]
    refine ⟨_, _, rfl, ?_⟩
    simp [STRIKE_SCORE]
  · simp only [hs, if_false]
    simp only [STRIKE_SCORE] at hs
    obtain ⟨b2, p2, hb2, h2lo, h2hi, _⟩ :=
      ball_range draws (MAX_PINS - b1) p1 (by simp only [MAX_PINS]; omega)
        (by simp only [MAX_PINS]; omega)
    simp only [hb2]
    simp only [MAX_PINS] at h2hi
    by_cases hp : b2 = MAX_PINS - b1
    · simp only [hp, if_true]
      refine ⟨_, _, rfl, ?_⟩
      simp [MAX_PINS]
      omega
    · simp only [hp, if_false]
      simp only [MAX_PINS] at hp
      refine ⟨_, _, rfl, ?_⟩
      simp
      omega

/-- The tenth-frame branch on any record: it returns a `LAST_FRAME` record with
the pins in the ranges the engine draws them from. -/
theorem throw_tenth_ok (draws : Nat → Nat) (f : frame_results) (pos : Nat) :
    ∃ g pos2, throw_tenth draws f pos = some (g, pos2) ∧
      g.type = LAST_FRAME ∧ g.score = f.score ∧
      0 ≤ g.first_ball ∧ g.first_ball ≤ 10 ∧
      (g.first_ball = 10 →
        0 ≤ g.second_ball ∧ g.second_ball ≤ 10 ∧ 0 ≤ g.third_ball ∧ g.third_ball ≤ 10 ∧
        (g.second_ball < 10 → g.third_ball ≤ 10 - g.second_ball)) ∧
      (g.first_ball < 10 →
        0 ≤ g.second_ball ∧ g.second_ball ≤ 10 - g.first_ball ∧ g.third_ball = 0) := by
  obtain ⟨b1, p1, hb1, h1lo, h1hi, _⟩ :=
    ball_range draws MAX_PINS pos (by decide) (by decide)
  simp only [MAX_PINS] at h1hi
  unfold throw_tenth
  simp only [hb1]
  by_cases hs : b1 = STRIKE_SCORE
  · simp only [hs, if_true]
    obtain ⟨b2, p2, hb2, h2lo, h2hi, _⟩ :=
      ball_range draws MAX_PINS p1 (by decide) (by decide)
    simp only [MAX_PINS] at h2hi
    simp only [hb2]
    by_cases hs2 : b2 = STRIKE_SCORE
    · simp only [hs2, if_true]
      obtain ⟨b3, p3, hb3, h3lo, h3hi, _⟩ :=
        ball_range draws MAX_PINS p2 (by decide) (by decide)
      simp only [MAX_PINS] at h3hi
      simp only [hb3]
      refine ⟨_, _, rfl, ?_⟩
      simp [STRIKE_SCORE]
      omega
    · simp only [hs2, if_false]
      simp only [STRIKE_SCORE] at hs2
      obtain ⟨b3, p3, hb3, h3lo, h3hi, _⟩ :=
        ball_range draws (MAX_PINS - b2) p2 (by simp only [MAX_PINS]; omega)
          (by simp only [MAX_PINS]; omega)
      simp only [MAX_PINS] at h3hi
      simp only [hb3]
      refine ⟨_, _, rfl, ?_⟩
      simp [STRIKE_SCORE]
      omega
  · simp only [hs, if_false]
    simp only [STRIKE_SCORE] at hs
    obtain ⟨b2, p2, hb2, h2lo, h2hi, _⟩ :=
      ball_range draws (MAX_PINS - b1) p1 (by simp only [MAX_PINS]; omega)
        (by simp only [MAX_PINS]; omega)
    simp only [MAX_PINS] at h2hi
    simp only [hb2]
    refine ⟨_, _, rfl, ?_⟩
    simp
    omega

/-! ## Claims -/

/-- C2: the perfect game of scenario A (nine strikes, tenth frame (10,10,10))
is well formed in the sense of the specification, and `validate_game` returns
`INVALID_PINS` on it. -/
theorem validate_game_rejects_perfect_game :
    spec_well_formed perfect_game ∧ validate_game perfect_game = some INVALID_PINS := by
  decide

/-- C3: `validate_game` accepts a game whose tenth frame is (3,12,7), outside
the tenth-frame pin ranges. -/
theorem validate_game_accepts_overfull_tenth :
    validate_game overfull_tenth_game = some NO_ERROR ∧
      ¬ spec_tenth_pins (frame_at overfull_tenth_game 9) := by
  decide

/-- C4, as stated, fails: `validate_game` accepts a game with a Spare whose
first ball is 10, an Open frame whose first ball is 10, and an Open frame whose
second ball is negative; it also accepts a game starting with Open(5, INT_MAX),
whose second ball is above 10 and whose balls sum to 10 or more. -/
theorem validate_game_accepts_odd_regular :
    validate_game odd_regular_game = some NO_ERROR ∧
      ((frame_at odd_regular_game 0).type = SPARE ∧
        ¬ (frame_at odd_regular_game 0).first_ball < 10) ∧
      ((frame_at odd_regular_game 1).type = OPEN ∧
        ¬ (frame_at odd_regular_game 1).first_ball < 10) ∧
      ((frame_at odd_regular_game 2).type = OPEN ∧
        ¬ 0 ≤ (frame_at odd_regular_game 2).second_ball) ∧
      validate_game overflow_open_game = some NO_ERROR ∧
      ((frame_at overflow_open_game 0).type = OPEN ∧
        ¬ (frame_at overflow_open_game 0).second_ball ≤ 10 ∧
        ¬ (frame_at overflow_open_game 0).first_ball +
            (frame_at overflow_open_game 0).second_ball < 10) := by
  decide

/-- C4, amended: in every game that `validate_game` accepts, every regular
frame has type Strike, Spare or Open and a first ball in [0,10]; a Strike has
first ball 10 and second ball 0, the 32-bit `int` sum of the balls of a Spare
is 10, and the 32-bit `int` sum of the balls of an Open frame is below 10.
When the second ball lies in `[INT_MIN, INT_MAX - 10]`, so that the sum cannot
overflow, the second ball is at most 10 and is non-negative unless the frame is
Open, the balls of a Spare sum to 10 and the balls of an Open frame sum to less
than 10. -/
theorem validate_game_regular_frames (frames : List frame_results)
    (hval : validate_game frames = some NO_ERROR) (i : Nat) (hi : i < 9) :
    scorable (frame_at frames i).type ∧
      0 ≤ (frame_at frames i).first_ball ∧ (frame_at frames i).first_ball ≤ 10 ∧
      ((frame_at frames i).type = STRIKE →
        (frame_at frames i).first_ball = 10 ∧ (frame_at frames i).second_ball = 0) ∧
      ((frame_at frames i).type = SPARE →
        to_int ((frame_at frames i).first_ball + (frame_at frames i).second_ball) = 10) ∧
      ((frame_at frames i).type = OPEN →
        to_int ((frame_at frames i).first_ball + (frame_at frames i).second_ball) < 10) ∧
      (INT_MIN ≤ (frame_at frames i).second_ball →
        (frame_at frames i).second_ball ≤ INT_MAX - 10 →
        (frame_at frames i).second_ball ≤ 10 ∧
        ((frame_at frames i).type ≠ OPEN → 0 ≤ (frame_at frames i).second_ball) ∧
        ((frame_at frames i).type = SPARE →
          (frame_at frames i).first_ball + (frame_at frames i).second_ball = 10) ∧
        ((frame_at frames i).type = OPEN →
          (frame_at frames i).first_ball + (frame_at frames i).second_ball < 10)) := by
  obtain ⟨f, hf, hv⟩ := (validate_game_ok_iff frames).1 hval i (by omega)
  rw [frame_at_of_lookup hf]
  obtain ⟨h0, h10, h⟩ := (validate_frame_regular i f hi).1 hv
  refine ⟨?_, h0, h10, ?_, ?_, ?_, ?_⟩
  · rcases h with ⟨ht, _⟩ | ⟨ht, _⟩ | ⟨ht, _⟩ <;> simp [scorable, ht]
  · intro ht
    rcases h with ⟨_, h1, h2⟩ | ⟨ht2, _⟩ | ⟨ht2, _⟩
    · exact ⟨h1, h2⟩
    · rw [ht] at ht2
      exact absurd ht2 (by decide)
    · rw [ht] at ht2
      exact absurd ht2 (by decide)
  · intro ht
    rcases h with ⟨ht2, _⟩ | ⟨_, h1⟩ | ⟨ht2, _⟩
    · rw [ht] at ht2
      exact absurd ht2 (by decide)
    · exact h1
    · rw [ht] at ht2
      exact absurd ht2 (by decide)
  · intro ht
    rcases h with ⟨ht2, _⟩ | ⟨ht2, _⟩ | ⟨_, h1⟩
    · rw [ht] at ht2
      exact absurd ht2 (by decide)
    · rw [ht] at ht2
      exact absurd ht2 (by decide)
    · exact h1
  · intro hmin hmax
    unfold INT_MIN at hmin
    unfold INT_MAX at hmax
    rcases h with ⟨ht, h1, h2⟩ | ⟨ht, h1⟩ | ⟨ht, h1⟩
    · simp [ht]
      omega
    · simp only [to_int] at h1
      simp [ht]
      omega
    · simp only [to_int] at h1
      simp [ht]
      omega

/-- The amended C4 on scenario C, frame 0. -/
theorem validate_game_regular_frames_witness :
    validate_game scenario_c = some NO_ERROR ∧ 0 < 9 ∧
      (frame_at scenario_c 0).first_ball + (frame_at scenario_c 0).second_ball = 10 :=
  ⟨by decide, by decide,
    ((validate_game_regular_frames scenario_c (by decide) 0 (by decide)).2.2.2.2.2.2
      (by decide) (by decide)).2.2.1 (by decide)⟩

/-- C5: when every `rand()` returns 0, `play_game` on the freshly initialised
game throws nine strikes and the tenth frame (10,10,10), and `validate_game`
returns `INVALID_PINS` on the game it produced. -/
theorem play_game_rejected_by_validator :
    init_game_results scenario_c = some (List.replicate 10 blank_frame) ∧
      play_game zero_draws (List.replicate 10 blank_frame) 0 = some (perfect_game, 12) ∧
      validate_game perfect_game = some INVALID_PINS := by
  decide

/-- C6, as stated, fails: `validate_game` accepts a game whose scores sum to
400, one whose scores sum to -5, and one, starting with Open(5, INT_MAX), whose
scores sum to -2147483644. -/
theorem total_score_out_of_bounds :
    validate_game huge_tenth_game = some NO_ERROR ∧
      (calculate_game_scores huge_tenth_game).bind (fun r => report_total r.2) = some 400 ∧
      validate_game negative_open_game = some NO_ERROR ∧
      (calculate_game_scores negative_open_game).bind (fun r => report_total r.2)
        = some (-5) ∧
      validate_game overflow_open_game = some NO_ERROR ∧
      (calculate_game_scores overflow_open_game).bind (fun r => report_total r.2)
        = some (-2147483644) := by
  decide

/-- C6, amended: for every ten-frame game that `validate_game` accepts in which
the second ball of every regular frame lies in [0,10] and the second and third
balls of the tenth frame lie in [0,10], `calculate_game_scores` returns
`NO_ERROR` and the ten scores it leaves sum to at least 0 and at most 300. -/
theorem total_score_bounds (frames : List frame_results)
    (hlen : frames.length = MAX_FRAMES) (hval : validate_game frames = some NO_ERROR)
    (hsecond : ∀ i, i < 9 →
      0 ≤ (frame_at frames i).second_ball ∧ (frame_at frames i).second_ball ≤ 10)
    (h9 : 0 ≤ (frame_at frames 9).second_ball ∧ (frame_at frames 9).second_ball ≤ 10 ∧
      0 ≤ (frame_at frames 9).third_ball ∧ (frame_at frames 9).third_ball ≤ 10) :
    ∃ out total, calculate_game_scores frames = some (NO_ERROR, out) ∧
      report_total out = some total ∧ 0 ≤ total ∧ total ≤ 300 := by
  have hlen10 : frames.length = 10 := hlen
  obtain ⟨out, hout, holen, _, _, hscore⟩ :=
    calculate_game_scores_from_ok 10 0 frames rfl hlen10
      (fun j _ hj => scorable_of_valid hval j hj)
  have hb : ∀ j, j < 10 → 0 ≤ (frame_at out j).score ∧ (frame_at out j).score ≤ 30 := by
    intro j hj
    rw [hscore j (Nat.zero_le j) hj]
    exact expected_score_bounds frames hval hsecond h9 j hj
  have b0 := hb 0 (by omega)
  have b1 := hb 1 (by omega)
  have b2 := hb 2 (by omega)
  have b3 := hb 3 (by omega)
  have b4 := hb 4 (by omega)
  have b5 := hb 5 (by omega)
  have b6 := hb 6 (by omega)
  have b7 := hb 7 (by omega)
  have b8 := hb 8 (by omega)
  have b9 := hb 9 (by omega)
  refine ⟨out, _, hout, report_total_eq out holen hb, ?_, ?_⟩ <;> omega

/-- The amended C6 on scenario C. -/
theorem total_score_bounds_witness :
    scenario_c.length = MAX_FRAMES ∧ validate_game scenario_c = some NO_ERROR ∧
      (∀ i, i < 9 → 0 ≤ (frame_at scenario_c i).second_ball ∧
        (frame_at scenario_c i).second_ball ≤ 10) ∧
      (0 ≤ (frame_at scenario_c 9).second_ball ∧ (frame_at scenario_c 9).second_ball ≤ 10 ∧
        0 ≤ (frame_at scenario_c 9).third_ball ∧ (frame_at scenario_c 9).third_ball ≤ 10) ∧
      ∃ out total, calculate_game_scores scenario_c = some (NO_ERROR, out) ∧
        report_total out = some total ∧ 0 ≤ total ∧ total ≤ 300 :=
  ⟨by decide, by decide, by decide, by decide,
    total_score_bounds scenario_c (by decide) (by decide) (by decide) (by decide)⟩

/-- C7: on the well-formed game Strike, Open(3,4), Open(5,0), zeros, the scorer
leaves 18 on the strike (10 + 3 + 5, the first balls of the next two frames),
while the two balls thrown after the strike are 3 and 4 and give 17. -/
theorem strike_bonus_skips_second_ball :
    spec_well_formed strike_then_open_game ∧
      (frame_at strike_then_open_game 1).type ≠ STRIKE ∧
      (calculate_game_scores strike_then_open_game).map
        (fun r => (r.1, (frame_at r.2 0).score)) = some (NO_ERROR, 18) ∧
      10 + (frame_at strike_then_open_game 1).first_ball +
        (frame_at strike_then_open_game 1).second_ball = 17 := by
  decide

/-- C8: for every draw stream and every regular index `i` in 0..8,
`throw_frame` on a game whose frame `i` is Undefined returns and leaves frame
`i` with type Strike, Spare or Open, where a Strike has first ball 10 and
second ball 0, a Spare has balls summing to 10 with first ball in [0,10), and
an Open frame has balls summing to less than 10, first ball below 10 and both
balls non-negative. -/
theorem throw_frame_regular (draws : Nat → Nat) (frames : List frame_results)
    (i : Nat) (pos : Nat) (hi : i < 9) (hlen : i < frames.length)
    (hund : (frame_at frames i).type = UNDEFINED) :
    ∃ out pos2, throw_frame draws frames i pos = some (out, pos2) ∧
      out.length = frames.length ∧
      ((frame_at out i).type = STRIKE ∨ (frame_at out i).type = SPARE ∨
        (frame_at out i).type = OPEN) ∧
      ((frame_at out i).type = STRIKE →
        (frame_at out i).first_ball = 10 ∧ (frame_at out i).second_ball = 0) ∧
      ((frame_at out i).type = SPARE →
        (frame_at out i).first_ball + (frame_at out i).second_ball = 10 ∧
        0 ≤ (frame_at out i).first_ball ∧ (frame_at out i).first_ball < 10) ∧
      ((frame_at out i).type = OPEN →
        (frame_at out i).first_ball + (frame_at out i).second_ball < 10 ∧
        (frame_at out i).first_ball < 10 ∧
        0 ≤ (frame_at out i).first_ball ∧ 0 ≤ (frame_at out i).second_ball) := by
  obtain ⟨g, p, hg, _, _, h1, h2, hcase⟩ := throw_regular_ok draws (frame_at frames i) pos
  refine ⟨frames.set i g, p, ?_, by simp, ?_⟩
  · unfold throw_frame
    simp only [lookup_eq_frame_at hlen, hund, if_true, hg]
    rw [if_neg (by omega)]
  · rw [frame_at_set_self frames i g hlen]
    rcases hcase with ⟨ht, ha, hb⟩ | ⟨ht, ha, hb⟩ | ⟨ht, ha, hb⟩ <;>
      simp [ht] <;> omega

/-- C8 on the blank game, frame 0, with the draws 0, 1, 2, ... -/
theorem throw_frame_regular_witness :
    0 < 9 ∧ 0 < blank_game.length ∧ (frame_at blank_game 0).type = UNDEFINED ∧
      ∃ out pos2, throw_frame counting_draws blank_game 0 0 = some (out, pos2) ∧
        ((frame_at out 0).type = STRIKE ∨ (frame_at out 0).type = SPARE ∨
          (frame_at out 0).type = OPEN) := by
  obtain ⟨out, pos2, h, _, ht, _⟩ :=
    throw_frame_regular counting_draws blank_game 0 0 (by decide) (by decide) (by decide)
  exact ⟨by decide, by decide, by decide, out, pos2, h, ht⟩

/-- C9: for every draw stream, `throw_frame` at index 9 on a game whose frame 9
is Undefined returns and leaves frame 9 with type LastFrame and first ball in
[0,10]; after a first ball of 10 the second and third balls are in [0,10], the
third at most 10 - second when the second is below 10; after a first ball
below 10 the second ball is in [0, 10 - first] and the third ball is 0, also
when the first two balls sum to 10. -/
theorem throw_frame_tenth (draws : Nat → Nat) (frames : List frame_results)
    (pos : Nat) (hlen : 9 < frames.length)
    (hund : (frame_at frames 9).type = UNDEFINED) :
    ∃ out pos2, throw_frame draws frames 9 pos = some (out, pos2) ∧
      out.length = frames.length ∧
      (frame_at out 9).type = LAST_FRAME ∧
      0 ≤ (frame_at out 9).first_ball ∧ (frame_at out 9).first_ball ≤ 10 ∧
      ((frame_at out 9).first_ball = 10 →
        0 ≤ (frame_at out 9).second_ball ∧ (frame_at out 9).second_ball ≤ 10 ∧
        0 ≤ (frame_at out 9).third_ball ∧ (frame_at out 9).third_ball ≤ 10 ∧
        ((frame_at out 9).second_ball < 10 →
          (frame_at out 9).third_ball ≤ 10 - (frame_at out 9).second_ball)) ∧
      ((frame_at out 9).first_ball < 10 →
        0 ≤ (frame_at out 9).second_ball ∧
        (frame_at out 9).second_ball ≤ 10 - (frame_at out 9).first_ball ∧
        (frame_at out 9).third_ball = 0) := by
  obtain ⟨g, p, hg, ht, _, h⟩ := throw_tenth_ok draws (frame_at frames 9) pos
  refine ⟨frames.set 9 g, p, ?_, by simp, ?_⟩
  · unfold throw_frame
    simp only [lookup_eq_frame_at hlen, hund, if_true, hg]
  · rw [frame_at_set_self frames 9 g hlen]
    exact ⟨ht, h⟩

/-- C9 on the blank game with the draws 0, 1, 2, ...: the tenth frame is
(10,10,10). -/
theorem throw_frame_tenth_witness :
    9 < blank_game.length ∧ (frame_at blank_game 9).type = UNDEFINED ∧
      ∃ out pos2, throw_frame counting_draws blank_game 9 0 = some (out, pos2) ∧
        (frame_at out 9).type = LAST_FRAME ∧
        0 ≤ (frame_at out 9).first_ball ∧ (frame_at out 9).first_ball ≤ 10 := by
  obtain ⟨out, pos2, h, _, ht, h0, h10, _⟩ :=
    throw_frame_tenth counting_draws blank_game 0 (by decide) (by decide)
  exact ⟨by decide, by decide, out, pos2, h, ht, h0, h10⟩

/-- C10: for every `pins` in [0,10] and every draw stream, the modulus
`pins + 1` of the fallback draw is not zero, and `ball(pins)` returns a value
between 0 and `pins`. -/
theorem ball_in_range (draws : Nat → Nat) (pins : Int) (pos : Nat)
    (h0 : 0 ≤ pins) (h10 : pins ≤ 10) :
    pins + 1 ≠ 0 ∧
      ∃ r pos2, ball draws pins pos = some (r, pos2) ∧ 0 ≤ r ∧ r ≤ pins := by
  refine ⟨by omega, ?_⟩
  obtain ⟨r, p, h, hlo, hhi, _⟩ := ball_range draws pins pos h0 h10
  exact ⟨r, p, h, hlo, hhi⟩

/-- C10 on a rack of 7 pins with the draws 0, 1, 2, ... from index 90 on: the
fallback branch returns 91 mod 8 = 3. -/
theorem ball_in_range_witness :
    (0 : Int) ≤ 7 ∧ (7 : Int) ≤ 10 ∧ ((7 : Int) + 1 ≠ 0 ∧
      ∃ r pos2, ball counting_draws 7 90 = some (r, pos2) ∧ 0 ≤ r ∧ r ≤ 7) :=
  ⟨by decide, by decide, ball_in_range counting_draws 7 90 (by decide) (by decide)⟩

/-! ## The validator: the first frame that fails -/

theorem validate_game_from_stop (frames : List frame_results) (n : Nat) :
    ∀ (i k : Nat) (e : bowling_error), k < n →
      (∀ j, j < k → ∃ f, frames[i + j]? = some f ∧ validate_frame (i + j) f = none) →
      (∃ f, frames[i + k]? = some f ∧ validate_frame (i + k) f = some e) →
      validate_game_from frames n i = some e := by
  induction n with
  | zero => intro i k e hk; omega
  | succ n ih =>
    intro i k e hk hbefore hat
    rw [validate_game_from]
    cases k with
    | zero =>
      obtain ⟨f, hf, hv⟩ := hat
      simp only [Nat.add_zero] at hf hv
      simp only [hf, hv]
    | succ k =>
      obtain ⟨f, hf, hv⟩ := hbefore 0 (by omega)
      simp only [Nat.add_zero] at hf hv
      simp only [hf, hv]
      refine ih (i + 1) k e (by omega) ?_ ?_
      · intro j hj
        have := hbefore (j + 1) (by omega)
        simpa [Nat.add_assoc, Nat.add_comm 1 j] using this
      · simpa [Nat.add_assoc, Nat.add_comm 1 k] using hat

/-- The validator returns the verdict of the first frame whose check fails. -/
theorem validate_game_stop (frames : List frame_results) (k : Nat) (e : bowling_error)
    (hk : k < 10) (hlen : k < frames.length)
    (hbefore : ∀ j, j < k → validate_frame j (frame_at frames j) = none)
    (hat : validate_frame k (frame_at frames k) = some e) :
    validate_game frames = some e := by
  unfold validate_game
  refine validate_game_from_stop frames MAX_FRAMES 0 k e (by simpa [MAX_FRAMES] using hk) ?_ ?_
  · intro j hj
    refine ⟨frame_at frames j, ?_, ?_⟩
    · simpa using @lookup_eq_frame_at frames j (by omega)
    · simpa using hbefore j hj
  · refine ⟨frame_at frames k, ?_, ?_⟩
    · simpa using @lookup_eq_frame_at frames k hlen
    · simpa using hat

/-- When frames 0..8 pass, the verdict is the one of the tenth frame. -/
theorem validate_game_at_tenth (frames : List frame_results) (hlen : frames.length = 10)
    (hbefore : ∀ j, j < 9 → validate_frame j (frame_at frames j) = none) :
    validate_game frames = some ((validate_frame 9 (frame_at frames 9)).getD NO_ERROR) := by
  cases hv : validate_frame 9 (frame_at frames 9) with
  | some e =>
    exact validate_game_stop frames 9 e (by omega) (by omega) hbefore hv
  | none =>
    refine (validate_game_ok_iff frames).2 ?_
    intro i hi
    refine ⟨frame_at frames i, lookup_eq_frame_at (by omega), ?_⟩
    by_cases h9 : i < 9
    · exact hbefore i h9
    · have : i = 9 := by omega
      subst this
      exact hv

/-- The tenth-frame branch reads the recorded type only to see that the frame
was played. -/
theorem validate_frame_tenth_type (i : Nat) (f : frame_results) (t : frame_type)
    (hi : ¬ i < 9) (hf : f.type ≠ UNDEFINED) (ht : t ≠ UNDEFINED) :
    validate_frame i { f with type := t } = validate_frame i f := by
  simp only [validate_frame, hi, hf, ht, if_false]

/-! ## Claims C11 to C13 and C18 -/

/-- C11: for every ten-frame game and every index `k` in 0..9 such that frame
`k` has type Undefined and every frame before `k` passes the validator's
checks, `validate_game` returns `INCOMPLETE_GAME`, whatever the later frames
hold. -/
theorem validate_game_incomplete (frames : List frame_results) (k : Nat)
    (hlen : frames.length = MAX_FRAMES) (hk : k < 10)
    (hund : (frame_at frames k).type = UNDEFINED)
    (hbefore : ∀ j, j < k → validate_frame j (frame_at frames j) = none) :
    validate_game frames = some INCOMPLETE_GAME := by
  have hlen10 : frames.length = 10 := hlen
  refine validate_game_stop frames k INCOMPLETE_GAME hk (by omega) hbefore ?_
  simp [validate_frame, hund]

/-- Scenario D of the specification, through C11: frame 5 Undefined. -/
theorem validate_game_incomplete_witness :
    scenario_d.length = MAX_FRAMES ∧ 5 < 10 ∧
      (frame_at scenario_d 5).type = UNDEFINED ∧
      (∀ j, j < 5 → validate_frame j (frame_at scenario_d j) = none) ∧
      validate_game scenario_d = some INCOMPLETE_GAME :=
  ⟨by decide, by decide, by decide, by decide,
    validate_game_incomplete scenario_d 5 (by decide) (by decide) (by decide) (by decide)⟩

/-- C13, as stated, fails: frames 0..8 pass, frame 9 is recorded as Open with
first ball 3, and `validate_game` returns `NO_ERROR`. -/
theorem validate_game_accepts_open_tenth :
    (∀ j, j < 9 → validate_frame j (frame_at open_tenth_game j) = none) ∧
      (frame_at open_tenth_game 9).type = OPEN ∧
      (frame_at open_tenth_game 9).first_ball = 3 ∧
      validate_game open_tenth_game = some NO_ERROR := by
  decide

/-- C13, amended: for every ten-frame game whose frames 0..8 pass the
validator's checks and whose frame 9 is recorded as Strike, Spare or Open, the
recorded type of frame 9 plays no part: `validate_game` returns what it returns
when frame 9 is recorded as LastFrame, and that is `NO_ERROR` or
`INVALID_PINS`, never `INVALID_FRAME_TYPE`. -/
theorem validate_game_tenth_type_unchecked (frames : List frame_results)
    (hlen : frames.length = MAX_FRAMES)
    (hbefore : ∀ j, j < 9 → validate_frame j (frame_at frames j) = none)
    (htype : (frame_at frames 9).type = STRIKE ∨ (frame_at frames 9).type = SPARE ∨
      (frame_at frames 9).type = OPEN) :
    validate_game frames =
        validate_game (frames.set 9 { frame_at frames 9 with type := LAST_FRAME }) ∧
      (validate_game frames = some NO_ERROR ∨ validate_game frames = some INVALID_PINS) ∧
      validate_game frames ≠ some INVALID_FRAME_TYPE := by
  have hlen10 : frames.length = 10 := hlen
  have hne : (frame_at frames 9).type ≠ UNDEFINED := by
    rcases htype with h | h | h <;> rw [h] <;> decide
  have h1 := validate_game_at_tenth frames hlen10 hbefore
  have h2 := validate_game_at_tenth
    (frames.set 9 { frame_at frames 9 with type := LAST_FRAME }) (by simpa using hlen10)
    (by
      intro j hj
      rw [frame_at_set_ne frames 9 j _ (by omega)]
      exact hbefore j hj)
  rw [frame_at_set_self frames 9 _ (by omega),
    validate_frame_tenth_type 9 (frame_at frames 9) LAST_FRAME (by decide) hne (by decide)]
    at h2
  have h3 : validate_frame 9 (frame_at frames 9) = none ∨
      validate_frame 9 (frame_at frames 9) = some INVALID_PINS := by
    generalize frame_at frames 9 = f at hne
    obtain ⟨t, a, b, c, s⟩ := f
    simp only at hne
    simp only [validate_frame, hne, if_false, show ¬ (9 < 9) by decide]
    split_ifs <;> simp
  refine ⟨h1.trans h2.symm, ?_, ?_⟩
  · rcases h3 with h | h <;> rw [h1, h] <;> simp
  · rcases h3 with h | h <;> rw [h1, h] <;> simp

/-- The amended C13 on the game whose tenth frame is recorded as Open. -/
theorem validate_game_tenth_type_unchecked_witness :
    open_tenth_game.length = MAX_FRAMES ∧
      (∀ j, j < 9 → validate_frame j (frame_at open_tenth_game j) = none) ∧
      (frame_at open_tenth_game 9).type = OPEN ∧
      validate_game open_tenth_game ≠ some INVALID_FRAME_TYPE :=
  ⟨by decide, by decide, by decide,
    (validate_game_tenth_type_unchecked open_tenth_game (by decide) (by decide)
      (Or.inr (Or.inr (by decide)))).2.2⟩

/-- C18: for every ten-frame game and every index `i` in 0..9 such that all
frames before `i` pass the validator's checks, frame `i` is not Undefined and
its first ball is below 0 or above 10, `validate_game` returns `INVALID_PINS`,
whatever type frame `i` records. -/
theorem validate_game_first_ball_range (frames : List frame_results) (i : Nat)
    (hlen : frames.length = MAX_FRAMES) (hi : i < 10)
    (hbefore : ∀ j, j < i → validate_frame j (frame_at frames j) = none)
    (hplayed : (frame_at frames i).type ≠ UNDEFINED)
    (hout : (frame_at frames i).first_ball < 0 ∨ (frame_at frames i).first_ball > 10) :
    validate_game frames = some INVALID_PINS := by
  have hlen10 : frames.length = 10 := hlen
  refine validate_game_stop frames i INVALID_PINS hi (by omega) hbefore ?_
  by_cases h9 : i < 9 <;> simp [validate_frame, hplayed, h9, hout, MAX_PINS]

/-- C18 on a game whose frame 1 has first ball 11 and is recorded as a Strike:
the verdict is `INVALID_PINS`, not `INVALID_FRAME_TYPE`. -/
theorem validate_game_first_ball_range_witness :
    eleven_pins_game.length = MAX_FRAMES ∧ 1 < 10 ∧
      (∀ j, j < 1 → validate_frame j (frame_at eleven_pins_game j) = none) ∧
      (frame_at eleven_pins_game 1).type = STRIKE ∧
      (frame_at eleven_pins_game 1).first_ball = 11 ∧
      validate_game eleven_pins_game = some INVALID_PINS :=
  ⟨by decide, by decide, by decide, by decide, by decide,
    validate_game_first_ball_range eleven_pins_game 1 (by decide) (by decide) (by decide)
      (by decide) (Or.inr (by decide))⟩

/-! ## Claims C15, C17 and C19 -/

/-- C15: for every ten-frame game, every index `i` in 0..9 whose frame is not
Undefined and every draw stream, `throw_frame` returns the game unchanged and
the draw index unchanged. -/
theorem throw_frame_noop (draws : Nat → Nat) (frames : List frame_results) (i : Nat)
    (pos : Nat) (hlen : frames.length = MAX_FRAMES) (hi : i < 10)
    (hplayed : (frame_at frames i).type ≠ UNDEFINED) :
    throw_frame draws frames i pos = some (frames, pos) := by
  have hlen10 : frames.length = 10 := hlen
  unfold throw_frame
  simp only [lookup_eq_frame_at (show i < frames.length by omega), hplayed, if_false]

/-- C15 on scenario C, frame 0, which is already a Spare. -/
theorem throw_frame_noop_witness :
    scenario_c.length = MAX_FRAMES ∧ 0 < 10 ∧
      (frame_at scenario_c 0).type ≠ UNDEFINED ∧
      throw_frame counting_draws scenario_c 0 7 = some (scenario_c, 7) :=
  ⟨by decide, by decide, by decide,
    throw_frame_noop counting_draws scenario_c 0 7 (by decide) (by decide) (by decide)⟩

/-- C17: for `pins` in [0,10] and `r` the first draw modulo 100, `ball(pins)`
returns, on a full rack, 10 if `r < 20`, 9 if `20 ≤ r < 35`, 8 if
`35 ≤ r < 50` and otherwise the second draw modulo 11; on a smaller rack,
`pins` if `r < 30`, `pins - 1` clamped to 0 if `30 ≤ r < 50`, `pins - 2`
clamped to 0 if `50 ≤ r < 80` and otherwise the second draw modulo
`pins + 1`.  One draw is consumed, two in the fallback case only. -/
theorem ball_distribution (draws : Nat → Nat) (pins : Int) (pos : Nat)
    (h0 : 0 ≤ pins) (h10 : pins ≤ 10) :
    (pins = 10 →
      (draws pos % 100 < 20 → ball draws pins pos = some (10, pos + 1)) ∧
      (20 ≤ draws pos % 100 → draws pos % 100 < 35 →
        ball draws pins pos = some (9, pos + 1)) ∧
      (35 ≤ draws pos % 100 → draws pos % 100 < 50 →
        ball draws pins pos = some (8, pos + 1)) ∧
      (50 ≤ draws pos % 100 →
        ball draws pins pos = some (((draws (pos + 1) % 11 : Nat) : Int), pos + 2))) ∧
    (pins < 10 →
      (draws pos % 100 < 30 → ball draws pins pos = some (pins, pos + 1)) ∧
      (30 ≤ draws pos % 100 → draws pos % 100 < 50 →
        ball draws pins pos = some (max (pins - 1) 0, pos + 1)) ∧
      (50 ≤ draws pos % 100 → draws pos % 100 < 80 →
        ball draws pins pos = some (max (pins - 2) 0, pos + 1)) ∧
      (80 ≤ draws pos % 100 →
        ball draws pins pos = some ((draws (pos + 1) : Int) % (pins + 1), pos + 2))) := by
  have hr : Int.tmod (draws pos : Int) 100 = ((draws pos % 100 : Nat) : Int) := rfl
  have hne : pins + 1 ≠ 0 := by omega
  have hf : Int.tmod (draws (pos + 1) : Int) (pins + 1) =
      (draws (pos + 1) : Int) % (pins + 1) :=
    Int.tmod_eq_emod (Int.ofNat_nonneg _) (by omega)
  unfold ball c_rem
  simp only [show (100 : Int) ≠ 0 by decide, if_false, hne, hr, hf, MAX_PINS]
  constructor
  · intro hp
    subst hp
    simp only [if_true]
    refine ⟨?_, ?_, ?_, ?_⟩
    · intro h1
      rw [if_pos (by omega)]
    · intro h1 h2
      rw [if_neg (by omega), if_pos (by omega)]
      rfl
    · intro h1 h2
      rw [if_neg (by omega), if_neg (by omega), if_pos (by omega)]
      rfl
    · intro h1
      rw [if_neg (by omega), if_neg (by omega), if_neg (by omega)]
      rfl
  · intro hp
    rw [if_neg (by omega)]
    refine ⟨?_, ?_, ?_, ?_⟩
    · intro h1
      rw [if_pos (by omega)]
    · intro h1 h2
      rw [if_neg (by omega), if_pos (by omega)]
      simp only [Option.some.injEq, Prod.mk.injEq, and_true]
      split_ifs <;> omega
    · intro h1 h2
      rw [if_neg (by omega), if_neg (by omega), if_pos (by omega)]
      simp only [Option.some.injEq, Prod.mk.injEq, and_true]
      split_ifs <;> omega
    · intro h1
      rw [if_neg (by omega), if_neg (by omega), if_neg (by omega)]

/-- C17 on a rack of 7 pins with the draws 0, 1, 2, ... from index 60 on:
`r = 60`, so the ball leaves two pins standing and consumes one draw. -/
theorem ball_distribution_witness :
    (0 : Int) ≤ 7 ∧ (7 : Int) ≤ 10 ∧ ball counting_draws 7 60 = some (5, 61) :=
  ⟨by decide, by decide,
    ((ball_distribution counting_draws 7 60 (by decide) (by decide)).2
      (by decide)).2.2.1 (by decide) (by decide)⟩

/-- C19: for every ten-frame game, every index `i` in 0..9 and every draw
stream, `throw_frame(game, i)` returns, keeps the length, leaves every frame
`j ≠ i` identical in all its fields, and leaves the score of frame `i` as it
was. -/
theorem throw_frame_populates_one (draws : Nat → Nat) (frames : List frame_results)
    (i : Nat) (pos : Nat) (hlen : frames.length = MAX_FRAMES) (hi : i < 10) :
    ∃ out pos2, throw_frame draws frames i pos = some (out, pos2) ∧
      out.length = frames.length ∧
      (∀ j, j ≠ i → frame_at out j = frame_at frames j) ∧
      (frame_at out i).score = (frame_at frames i).score := by
  have hlen10 : frames.length = 10 := hlen
  have hil : i < frames.length := by omega
  unfold throw_frame
  simp only [lookup_eq_frame_at hil]
  by_cases hund : (frame_at frames i).type = UNDEFINED
  · simp only [hund, if_true]
    by_cases h9 : i = 9
    · obtain ⟨g, p, hg, _, hs, _⟩ := throw_tenth_ok draws (frame_at frames i) pos
      simp only [h9, if_true]
      rw [h9] at hg hs
      simp only [hg]
      refine ⟨_, _, rfl, by simp, ?_, ?_⟩
      · intro j hj
        exact frame_at_set_ne frames 9 j g (by omega)
      · rw [frame_at_set_self frames 9 g (by omega)]
        exact hs
    · obtain ⟨g, p, hg, _, hs, _⟩ := throw_regular_ok draws (frame_at frames i) pos
      simp only [h9, if_false, hg]
      refine ⟨_, _, rfl, by simp, ?_, ?_⟩
      · intro j hj
        exact frame_at_set_ne frames i j g (by omega)
      · rw [frame_at_set_self frames i g hil]
        exact hs
  · simp only [hund, if_false]
    exact ⟨_, _, rfl, rfl, fun _ _ => rfl, rfl⟩

/-- C19 on scenario D, whose frame 5 is Undefined, with the draws 0, 1, 2, ... -/
theorem throw_frame_populates_one_witness :
    scenario_d.length = MAX_FRAMES ∧ 5 < 10 ∧
      ∃ out pos2, throw_frame counting_draws scenario_d 5 0 = some (out, pos2) ∧
        out.length = scenario_d.length ∧
        (∀ j, j ≠ 5 → frame_at out j = frame_at scenario_d j) ∧
        (frame_at out 5).score = (frame_at scenario_d 5).score :=
  ⟨by decide, by decide,
    throw_frame_populates_one counting_draws scenario_d 5 0 (by decide) (by decide)⟩

/-! ## The scorer on any ten-frame array -/

theorem stops_at_unique {frames : List frame_results} {k m : Nat}
    (hk : stops_at frames k) (hm : stops_at frames m) : k = m := by
  obtain ⟨hk1, hk2⟩ := hk
  obtain ⟨hm1, hm2⟩ := hm
  rcases hk2 with hk2 | ⟨hk9, hkbad⟩ <;> rcases hm2 with hm2 | ⟨hm9, hmbad⟩
  · omega
  · exact absurd (hk1 m (by omega) hm9) hmbad
  · exact absurd (hm1 k (by omega) hk9) hkbad
  · rcases Nat.lt_trichotomy k m with h | h | h
    · exact absurd (hm1 k h hk9) hkbad
    · exact h
    · exact absurd (hk1 m h hm9) hmbad

theorem stops_at_congr {a b : List frame_results} {k : Nat}
    (h : ∀ j, j < 9 → (frame_at a j).type = (frame_at b j).type)
    (hk : stops_at a k) : stops_at b k := by
  obtain ⟨hk1, hk2⟩ := hk
  refine ⟨?_, ?_⟩
  · intro j hj h9
    rw [← h j h9]
    exact hk1 j hj h9
  · rcases hk2 with hk2 | ⟨hk9, hkbad⟩
    · exact Or.inl hk2
    · refine Or.inr ⟨hk9, ?_⟩
      rw [← h k hk9]
      exact hkbad

/-- The loop of the scorer from index `i` on, on any ten-frame array: it ends
at the first regular frame `k ≥ i` of a type it does not accept, or at 10. -/
theorem calculate_game_scores_from_spec (n : Nat) :
    ∀ (i : Nat) (frames : List frame_results), i + n = 10 → frames.length = 10 →
      ∃ e out k, calculate_game_scores_from n i frames = some (e, out) ∧
        i ≤ k ∧
        (∀ j, i ≤ j → j < k → j < 9 → scorable (frame_at frames j).type) ∧
        ((k = 10 ∧ e = NO_ERROR) ∨
          (k < 9 ∧ ¬ scorable (frame_at frames k).type ∧ e = INVALID_FRAME_TYPE)) ∧
        out.length = 10 ∧ out.map unscored = frames.map unscored ∧
        (∀ j, i ≤ j → j < k → (frame_at out j).score = expected_score frames j) ∧
        (∀ j, j < i ∨ k ≤ j → frame_at out j = frame_at frames j) := by
  induction n with
  | zero =>
    intro i frames hin hlen
    refine ⟨NO_ERROR, frames, 10, rfl, by omega, ?_, Or.inl ⟨rfl, rfl⟩, hlen, rfl, ?_, ?_⟩
    · intro j h1 h2 h3
      omega
    · intro j h1 h2
      omega
    · intro j _
      rfl
  | succ n ih =>
    intro i frames hin hlen
    have hi : i < 10 := by omega
    have hstep := score_frame_eq frames i hlen hi
    by_cases hbad : i < 9 ∧ ¬ scorable (frame_at frames i).type
    · rw [if_pos hbad] at hstep
      refine ⟨INVALID_FRAME_TYPE, frames, i, ?_, Nat.le_refl i, ?_,
        Or.inr ⟨hbad.1, hbad.2, rfl⟩, hlen, rfl, ?_, ?_⟩
      · rw [calculate_game_scores_from, hstep]
      · intro j h1 h2 _
        omega
      · intro j h1 h2
        omega
      · intro j _
        rfl
    · rw [if_neg hbad] at hstep
      have hmap := map_unscored_set_score frames i (expected_score frames i)
      obtain ⟨e, out, k, hout, hik, hsc, hend, holen, homap, hscore, hsame⟩ :=
        ih (i + 1) (frames.set i { frame_at frames i with score := expected_score frames i })
          (by omega) (by simpa using hlen)
      refine ⟨e, out, k, ?_, by omega, ?_, ?_, holen, homap.trans hmap, ?_, ?_⟩
      · rw [calculate_game_scores_from, hstep]
        exact hout
      · intro j h1 h2 h9
        by_cases hEq : i = j
        · subst hEq
          by_contra hns
          exact hbad ⟨h9, hns⟩
        · rw [← type_congr hmap j]
          exact hsc j (by omega) h2 h9
      · rcases hend with h | ⟨h9, hns, he⟩
        · exact Or.inl h
        · refine Or.inr ⟨h9, ?_, he⟩
          rw [← type_congr hmap k]
          exact hns
      · intro j h1 h2
        by_cases hEq : i = j
        · subst hEq
          rw [hsame i (Or.inl (by omega)), frame_at_set_self frames i _ (by omega)]
        · rw [hscore j (by omega) h2, expected_score_congr hmap j]
      · intro j hj
        have hne : i ≠ j := by omega
        rw [hsame j (by omega), frame_at_set_ne frames i j _ hne]

/-- The scorer on any ten-frame array: it returns, ends at the index `k` fixed
by the recorded types, stores the expected value on the frames before `k` and
leaves everything else as it was. -/
theorem calculate_game_scores_spec (frames : List frame_results)
    (hlen : frames.length = 10) :
    ∃ e out k, calculate_game_scores frames = some (e, out) ∧ stops_at frames k ∧
      ((k = 10 ∧ e = NO_ERROR) ∨ (k < 9 ∧ e = INVALID_FRAME_TYPE)) ∧
      out.length = 10 ∧ out.map unscored = frames.map unscored ∧
      (∀ j, j < k → (frame_at out j).score = expected_score frames j) ∧
      (∀ j, k ≤ j → frame_at out j = frame_at frames j) := by
  obtain ⟨e, out, k, hout, _, hsc, hend, holen, homap, hscore, hsame⟩ :=
    calculate_game_scores_from_spec 10 0 frames rfl hlen
  refine ⟨e, out, k, hout, ⟨fun j hj h9 => hsc j (Nat.zero_le j) hj h9, ?_⟩, ?_, holen,
    homap, fun j hj => hscore j (Nat.zero_le j) hj, fun j hj => hsame j (Or.inr hj)⟩
  · rcases hend with ⟨h, _⟩ | ⟨h9, hns, _⟩
    · exact Or.inl h
    · exact Or.inr ⟨h9, hns⟩
  · rcases hend with ⟨h, he⟩ | ⟨h9, _, he⟩
    · exact Or.inl ⟨h, he⟩
    · exact Or.inr ⟨h9, he⟩

theorem eq_of_frame_at {a b : List frame_results} (hl : a.length = b.length)
    (h : ∀ j, frame_at a j = frame_at b j) : a = b := by
  apply List.ext_getElem?
  intro j
  by_cases hj : j < a.length
  · rw [lookup_eq_frame_at hj, lookup_eq_frame_at (show j < b.length by omega), h j]
  · rw [List.getElem?_eq_none (by omega), List.getElem?_eq_none (by omega)]

theorem frame_eq_of_unscored {f g : frame_results} (h : unscored f = unscored g)
    (hs : f.score = g.score) : f = g := by
  obtain ⟨t, a, b, c, s⟩ := f
  obtain ⟨t2, a2, b2, c2, s2⟩ := g
  simp only [unscored, frame_results.mk.injEq] at h
  simp only at hs
  simp [h, hs]

theorem validate_frame_unscored (i : Nat) (f : frame_results) :
    validate_frame i (unscored f) = validate_frame i f := rfl

theorem validate_game_from_unscored (frames : List frame_results) (n : Nat) :
    ∀ i, validate_game_from (frames.map unscored) n i = validate_game_from frames n i := by
  induction n with
  | zero => intro i; rfl
  | succ n ih =>
    intro i
    rw [validate_game_from, validate_game_from, List.getElem?_map]
    cases frames[i]? with
    | none => rfl
    | some f =>
      simp only [Option.map_some', validate_frame_unscored, ih]

/-- The validator never reads a score. -/
theorem validate_game_congr {a b : List frame_results}
    (h : a.map unscored = b.map unscored) : validate_game a = validate_game b := by
  unfold validate_game
  rw [← validate_game_from_unscored a, ← validate_game_from_unscored b, h]

theorem not_scorable_iff (t : frame_type) :
    ¬ scorable t ↔ (t = LAST_FRAME ∨ t = UNDEFINED) := by
  cases t <;> simp [scorable]

/-- Changing the type recorded on frame 9 changes no ball, no score and no
regular frame's type. -/
theorem frame_at_set_tenth_type (frames : List frame_results) (t : frame_type)
    (hlen : frames.length = 10) (m : Nat) :
    (frame_at (frames.set 9 { frame_at frames 9 with type := t }) m).first_ball
        = (frame_at frames m).first_ball ∧
      (frame_at (frames.set 9 { frame_at frames 9 with type := t }) m).second_ball
        = (frame_at frames m).second_ball ∧
      (frame_at (frames.set 9 { frame_at frames 9 with type := t }) m).third_ball
        = (frame_at frames m).third_ball ∧
      (frame_at (frames.set 9 { frame_at frames 9 with type := t }) m).score
        = (frame_at frames m).score ∧
      (m < 9 → (frame_at (frames.set 9 { frame_at frames 9 with type := t }) m).type
        = (frame_at frames m).type) := by
  by_cases hm : 9 = m
  · subst hm
    rw [frame_at_set_self frames 9 _ (by omega)]
    exact ⟨rfl, rfl, rfl, rfl, fun h => absurd h (by decide)⟩
  · rw [frame_at_set_ne frames 9 m _ hm]
    exact ⟨rfl, rfl, rfl, rfl, fun _ => rfl⟩

theorem expected_score_set_tenth_type (frames : List frame_results) (t : frame_type)
    (hlen : frames.length = 10) (j : Nat) :
    expected_score (frames.set 9 { frame_at frames 9 with type := t }) j =
      expected_score frames j := by
  have hb := frame_at_set_tenth_type frames t hlen
  unfold expected_score
  by_cases h9 : j < 9
  · simp only [h9, if_true, (hb j).2.2.2.2 h9, (hb j).1, (hb j).2.1, (hb (j + 1)).1,
      (hb (j + 1)).2.1, (hb (j + 2)).1]
  · simp only [h9, if_false, (hb j).1, (hb j).2.1, (hb j).2.2.1]

/-! ## Claims C14 and C20 -/

/-- C14: on every ten-frame game `calculate_game_scores` returns
`INVALID_FRAME_TYPE` exactly when some regular frame 0..8 is recorded as
LastFrame or Undefined, and `NO_ERROR` exactly when every regular frame is a
Strike, a Spare or an Open frame; with any other type recorded on frame 9 it
returns the same code and leaves the same scores. -/
theorem calculate_game_scores_verdict (frames : List frame_results)
    (hlen : frames.length = MAX_FRAMES) :
    ∃ e out, calculate_game_scores frames = some (e, out) ∧
      (e = INVALID_FRAME_TYPE ↔
        ∃ i, i < 9 ∧ ((frame_at frames i).type = LAST_FRAME ∨
          (frame_at frames i).type = UNDEFINED)) ∧
      (e = NO_ERROR ↔
        ∀ i, i < 9 → ((frame_at frames i).type = STRIKE ∨
          (frame_at frames i).type = SPARE ∨ (frame_at frames i).type = OPEN)) ∧
      (∀ t, ∃ out2,
        calculate_game_scores (frames.set 9 { frame_at frames 9 with type := t })
          = some (e, out2) ∧
        ∀ j, (frame_at out2 j).score = (frame_at out j).score) := by
  have hlen10 : frames.length = 10 := hlen
  obtain ⟨e, out, k, hout, hstop, hend, _, _, hscore, hsame⟩ :=
    calculate_game_scores_spec frames hlen10
  refine ⟨e, out, hout, ?_, ?_, ?_⟩
  · constructor
    · intro he
      rcases hend with ⟨_, h⟩ | ⟨h9, _⟩
      · rw [h] at he
        exact absurd he (by decide)
      · rcases hstop.2 with h | ⟨_, hns⟩
        · omega
        · exact ⟨k, h9, (not_scorable_iff _).1 hns⟩
    · rintro ⟨i, hi, hbad⟩
      rcases hend with ⟨h, _⟩ | ⟨_, h⟩
      · exact absurd (hstop.1 i (by omega) hi) ((not_scorable_iff _).2 hbad)
      · exact h
  · constructor
    · intro he i hi
      rcases hend with ⟨h, _⟩ | ⟨_, h⟩
      · exact hstop.1 i (by omega) hi
      · rw [h] at he
        exact absurd he (by decide)
    · intro hall
      rcases hend with ⟨_, h⟩ | ⟨h9, _⟩
      · exact h
      · rcases hstop.2 with h | ⟨_, hns⟩
        · omega
        · exact absurd (hall k h9) hns
  · intro t
    have hb := frame_at_set_tenth_type frames t hlen10
    obtain ⟨e2, out2, k2, hout2, hstop2, hend2, _, _, hscore2, hsame2⟩ :=
      calculate_game_scores_spec (frames.set 9 { frame_at frames 9 with type := t })
        (by simpa using hlen10)
    have hk : k2 = k :=
      stops_at_unique (stops_at_congr (fun j hj => (hb j).2.2.2.2 hj) hstop2) hstop
    subst hk
    have he : e2 = e := by
      rcases hend with ⟨h, he⟩ | ⟨h, he⟩ <;> rcases hend2 with ⟨h2, he2⟩ | ⟨h2, he2⟩
      · rw [he, he2]
      · omega
      · omega
      · rw [he, he2]
    subst he
    refine ⟨out2, hout2, ?_⟩
    intro j
    by_cases hj : j < k2
    · rw [hscore2 j hj, hscore j hj, expected_score_set_tenth_type frames t hlen10 j]
    · rw [hsame2 j (by omega), hsame j (by omega)]
      exact (hb j).2.2.2.1

/-- C14 on scenario D, whose frame 5 is Undefined: the scorer returns
`INVALID_FRAME_TYPE`. -/
theorem calculate_game_scores_verdict_witness :
    scenario_d.length = MAX_FRAMES ∧
      (calculate_game_scores scenario_d).map Prod.fst = some INVALID_FRAME_TYPE := by
  obtain ⟨e, out, hout, hbad, _, _⟩ :=
    calculate_game_scores_verdict scenario_d (by decide)
  refine ⟨by decide, ?_⟩
  rw [hout, Option.map_some', hbad.2 ⟨5, by decide, Or.inr (by decide)⟩]

/-- C20: on every ten-frame game `calculate_game_scores` returns `NO_ERROR` or
`INVALID_FRAME_TYPE` and leaves the type and the three balls of every frame as
they were, so `validate_game` gives the same verdict after the call as before,
and a second call returns the same code and changes nothing. -/
theorem calculate_game_scores_writes_scores_only (frames : List frame_results)
    (hlen : frames.length = MAX_FRAMES) :
    ∃ e out, calculate_game_scores frames = some (e, out) ∧
      (e = NO_ERROR ∨ e = INVALID_FRAME_TYPE) ∧
      out.length = MAX_FRAMES ∧
      (∀ j, (frame_at out j).type = (frame_at frames j).type ∧
        (frame_at out j).first_ball = (frame_at frames j).first_ball ∧
        (frame_at out j).second_ball = (frame_at frames j).second_ball ∧
        (frame_at out j).third_ball = (frame_at frames j).third_ball) ∧
      validate_game out = validate_game frames ∧
      calculate_game_scores out = some (e, out) := by
  have hlen10 : frames.length = 10 := hlen
  obtain ⟨e, out, k, hout, hstop, hend, holen, homap, hscore, hsame⟩ :=
    calculate_game_scores_spec frames hlen10
  obtain ⟨e2, out2, k2, hout2, hstop2, hend2, holen2, homap2, hscore2, hsame2⟩ :=
    calculate_game_scores_spec out holen
  have hk : k2 = k :=
    stops_at_unique (stops_at_congr (fun j _ => type_congr homap j) hstop2) hstop
  subst hk
  have he : e2 = e := by
    rcases hend with ⟨h, he⟩ | ⟨h, he⟩ <;> rcases hend2 with ⟨h2, he2⟩ | ⟨h2, he2⟩
    · rw [he, he2]
    · omega
    · omega
    · rw [he, he2]
  subst he
  have hsame_out : out2 = out := by
    refine eq_of_frame_at (holen2.trans holen.symm) ?_
    intro j
    by_cases hj : j < k2
    · refine frame_eq_of_unscored (unscored_frame_at_congr homap2 j) ?_
      rw [hscore2 j hj, hscore j hj, expected_score_congr homap j]
    · exact hsame2 j (by omega)
  refine ⟨e2, out, hout, ?_, holen, ?_, validate_game_congr homap, ?_⟩
  · rcases hend with ⟨_, he⟩ | ⟨_, he⟩
    · exact Or.inl he
    · exact Or.inr he
  · intro j
    exact ⟨type_congr homap j, first_ball_congr homap j, second_ball_congr homap j,
      third_ball_congr homap j⟩
  · rw [hout2, hsame_out]

/-- C20 on scenario C: the scored game passes the validator as the unscored
one does. -/
theorem calculate_game_scores_writes_scores_only_witness :
    scenario_c.length = MAX_FRAMES ∧
      ((calculate_game_scores scenario_c).bind (fun r => validate_game r.2))
        = validate_game scenario_c := by
  obtain ⟨e, out, hout, _, _, _, hval, _⟩ :=
    calculate_game_scores_writes_scores_only scenario_c (by decide)
  refine ⟨by decide, ?_⟩
  rw [hout, Option.some_bind, hval]

/-! ## A whole game played by the engine -/

/-- The function `init_game_results` overwrites every record of a ten-frame
array with the blank record. -/
theorem init_game_results_eq (frames : List frame_results) (h : frames.length = 10) :
    init_game_results frames = some blank_game := by
  match frames, h with
  | [a0, a1, a2, a3, a4, a5, a6, a7, a8, a9], _ =>
    simp [init_game_results, init_game_results_from, MAX_FRAMES, blank_game, blank_frame]

/-- Throwing an Undefined frame stores one new record at its index. -/
theorem throw_frame_undefined (draws : Nat → Nat) (frames : List frame_results)
    (i : Nat) (pos : Nat) (hil : i < frames.length)
    (hund : (frame_at frames i).type = UNDEFINED) :
    ∃ g pos2, throw_frame draws frames i pos = some (frames.set i g, pos2) ∧
      (i = 9 → thrown_tenth g) ∧ (i ≠ 9 → thrown_regular g) := by
  unfold throw_frame
  simp only [lookup_eq_frame_at hil, hund, if_true]
  by_cases h9 : i = 9
  · obtain ⟨g, p, hg, ht, _, h⟩ := throw_tenth_ok draws (frame_at frames i) pos
    simp only [h9, if_true]
    rw [h9] at hg
    simp only [hg]
    exact ⟨g, p, rfl, fun _ => ⟨ht, h⟩, fun h => absurd rfl h⟩
  · obtain ⟨g, p, hg, _, _, h⟩ := throw_regular_ok draws (frame_at frames i) pos
    simp only [h9, if_false, hg]
    exact ⟨g, p, rfl, fun h => h.elim, fun _ => h⟩

/-- The loop of `play_game` from index `i` on, on a ten-frame array whose
frames from `i` on are Undefined. -/
theorem play_game_from_spec (draws : Nat → Nat) (n : Nat) :
    ∀ (i : Nat) (frames : List frame_results) (pos : Nat), i + n = 10 →
      frames.length = 10 →
      (∀ j, i ≤ j → j < 10 → (frame_at frames j).type = UNDEFINED) →
      ∃ out pos2, play_game_from draws n i frames pos = some (out, pos2) ∧
        out.length = 10 ∧
        (∀ j, j < i → frame_at out j = frame_at frames j) ∧
        (∀ j, i ≤ j → j < 9 → thrown_regular (frame_at out j)) ∧
        (i ≤ 9 → thrown_tenth (frame_at out 9)) := by
  induction n with
  | zero =>
    intro i frames pos hin hlen _
    refine ⟨frames, pos, rfl, hlen, fun _ _ => rfl, ?_, ?_⟩
    · intro j h1 h2
      omega
    · intro h
      omega
  | succ n ih =>
    intro i frames pos hin hlen hund
    have hi : i < 10 := by omega
    obtain ⟨g, p, hg, hten, hreg⟩ :=
      throw_frame_undefined draws frames i pos (by omega) (hund i (Nat.le_refl i) hi)
    obtain ⟨out, p2, hout, holen, hbefore, hafter, hlast⟩ :=
      ih (i + 1) (frames.set i g) p (by omega) (by simpa using hlen)
        (by
          intro j h1 h2
          rw [frame_at_set_ne frames i j g (by omega)]
          exact hund j (by omega) h2)
    have hself : frame_at out i = g := by
      rw [hbefore i (by omega), frame_at_set_self frames i g (by omega)]
    refine ⟨out, p2, ?_, holen, ?_, ?_, ?_⟩
    · rw [play_game_from, hg]
      exact hout
    · intro j hj
      rw [hbefore j (by omega), frame_at_set_ne frames i j g (by omega)]
    · intro j h1 h2
      by_cases hEq : i = j
      · subst hEq
        rw [hself]
        exact hreg (by omega)
      · exact hafter j (by omega) h2
    · intro _
      by_cases hEq : i = 9
      · subst hEq
        rw [hself]
        exact hten rfl
      · exact hlast (by omega)

/-- Bounds on the value stored for one frame of a game thrown by the engine. -/
theorem expected_score_bounds_thrown (frames : List frame_results)
    (hreg : ∀ j, j < 9 → thrown_regular (frame_at frames j))
    (hten : thrown_tenth (frame_at frames 9)) (j : Nat) (hj : j < 10) :
    0 ≤ expected_score frames j ∧ expected_score frames j ≤ 30 := by
  have hfirst : ∀ k, k < 10 →
      0 ≤ (frame_at frames k).first_ball ∧ (frame_at frames k).first_ball ≤ 10 := by
    intro k hk
    by_cases h : k < 9
    · obtain ⟨h0, _, hc⟩ := hreg k h
      rcases hc with ⟨_, h1, _⟩ | ⟨_, _, h1⟩ | ⟨_, _, h1⟩ <;> omega
    · have hk9 : k = 9 := by omega
      subst hk9
      exact ⟨hten.2.1, hten.2.2.1⟩
  obtain ⟨_, h9lo, h9hi, h9strike, h9other⟩ := hten
  by_cases hj9 : j < 9
  · obtain ⟨h0, hs0, hc⟩ := hreg j hj9
    have h1 := hfirst (j + 1) (by omega)
    simp only [expected_score, hj9, if_true, STRIKE_SCORE]
    rcases hc with ⟨ht, _, _⟩ | ⟨ht, _, _⟩ | ⟨ht, _, _⟩
    · simp only [ht, if_true]
      by_cases h8 : j = 8
      · subst h8
        simp only [Nat.reduceAdd] at h1
        simp only [if_true, Nat.reduceAdd, to_int]
        by_cases hs : (frame_at frames 9).first_ball = 10
        · have := h9strike hs
          omega
        · have := h9other (by omega)
          omega
      · have h2 := hfirst (j + 2) (by omega)
        simp only [h8, if_false, to_int]
        omega
    · simp [ht]
      simp only [to_int]
      omega
    · simp [ht]
      simp only [to_int]
      omega
  · have hj' : j = 9 := by omega
    subst hj'
    simp only [expected_score, show ¬ (9 < 9) by decide, if_false, to_int]
    by_cases hs : (frame_at frames 9).first_ball = 10
    · have := h9strike hs
      omega
    · have := h9other (by omega)
      omega

/-! ## Claim C16 -/

/-- C16: for every draw stream, `init_game_results` on a ten-frame array, then
`play_game`, then `calculate_game_scores` all return, the scorer with
`NO_ERROR`, and the ten scores sum to at least 0 and at most 300. -/
theorem played_total_score_bounds (draws : Nat → Nat) (frames : List frame_results)
    (pos : Nat) (hlen : frames.length = MAX_FRAMES) :
    ∃ fresh game pos2 out total,
      init_game_results frames = some fresh ∧
      play_game draws fresh pos = some (game, pos2) ∧
      calculate_game_scores game = some (NO_ERROR, out) ∧
      report_total out = some total ∧ 0 ≤ total ∧ total ≤ 300 := by
  have hlen10 : frames.length = 10 := hlen
  have hblank : ∀ j, j < 10 → (frame_at blank_game j).type = UNDEFINED := by decide
  obtain ⟨game, pos2, hplay, hglen, _, hreg, hten⟩ :=
    play_game_from_spec draws 10 0 blank_game pos rfl (by decide)
      (fun j _ hj => hblank j hj)
  have hreg0 : ∀ j, j < 9 → thrown_regular (frame_at game j) :=
    fun j hj => hreg j (Nat.zero_le j) hj
  have hten0 : thrown_tenth (frame_at game 9) := hten (by omega)
  obtain ⟨out, hout, holen, _, _, hscore⟩ :=
    calculate_game_scores_from_ok 10 0 game rfl hglen
      (by
        intro j _ hj
        obtain ⟨_, _, hc⟩ := hreg0 j hj
        rcases hc with ⟨ht, _⟩ | ⟨ht, _⟩ | ⟨ht, _⟩
        · exact Or.inl ht
        · exact Or.inr (Or.inl ht)
        · exact Or.inr (Or.inr ht))
  have hb : ∀ j, j < 10 → 0 ≤ (frame_at out j).score ∧ (frame_at out j).score ≤ 30 := by
    intro j hj
    rw [hscore j (Nat.zero_le j) hj]
    exact expected_score_bounds_thrown game hreg0 hten0 j hj
  have b0 := hb 0 (by omega)
  have b1 := hb 1 (by omega)
  have b2 := hb 2 (by omega)
  have b3 := hb 3 (by omega)
  have b4 := hb 4 (by omega)
  have b5 := hb 5 (by omega)
  have b6 := hb 6 (by omega)
  have b7 := hb 7 (by omega)
  have b8 := hb 8 (by omega)
  have b9 := hb 9 (by omega)
  refine ⟨blank_game, game, pos2, out, _, init_game_results_eq frames hlen10, hplay, hout,
    report_total_eq out holen hb, ?_, ?_⟩ <;> omega

/-- C16 on an array that still holds scenario C, with the draws 0, 1, 2, ... -/
theorem played_total_score_bounds_witness :
    scenario_c.length = MAX_FRAMES ∧
      ∃ fresh game pos2 out total,
        init_game_results scenario_c = some fresh ∧
        play_game counting_draws fresh 0 = some (game, pos2) ∧
        calculate_game_scores game = some (NO_ERROR, out) ∧
        report_total out = some total ∧ 0 ≤ total ∧ total ≤ 300 :=
  ⟨by decide, played_total_score_bounds counting_draws scenario_c 0 (by decide)⟩

/-! ## Claims C21 and C22 -/

/-- On a played record the tenth-frame branch either passes or returns
`INVALID_PINS`. -/
theorem validate_frame_tenth_cases (i : Nat) (f : frame_results) (hi : ¬ i < 9)
    (hf : f.type ≠ UNDEFINED) :
    validate_frame i f = none ∨ validate_frame i f = some INVALID_PINS := by
  obtain ⟨t, a, b, c, s⟩ := f
  simp only at hf
  simp only [validate_frame, hf, hi, if_false]
  split_ifs <;> simp

/-- C21: for every ten-frame game whose frames 0..8 pass the validator's checks
and whose frame 9 is not Undefined, `validate_game` returns `NO_ERROR` exactly
when the first ball of frame 9 is in [0,9], whatever its second and third
balls, or frame 9 is (10,0,0); in every other case it returns
`INVALID_PINS`. -/
theorem validate_game_tenth_verdict (frames : List frame_results)
    (hlen : frames.length = MAX_FRAMES)
    (hbefore : ∀ j, j < 9 → validate_frame j (frame_at frames j) = none)
    (hplayed : (frame_at frames 9).type ≠ UNDEFINED) :
    (validate_game frames = some NO_ERROR ↔
      ((0 ≤ (frame_at frames 9).first_ball ∧ (frame_at frames 9).first_ball ≤ 9) ∨
       ((frame_at frames 9).first_ball = 10 ∧ (frame_at frames 9).second_ball = 0 ∧
        (frame_at frames 9).third_ball = 0))) ∧
    (¬ ((0 ≤ (frame_at frames 9).first_ball ∧ (frame_at frames 9).first_ball ≤ 9) ∨
        ((frame_at frames 9).first_ball = 10 ∧ (frame_at frames 9).second_ball = 0 ∧
         (frame_at frames 9).third_ball = 0)) →
      validate_game frames = some INVALID_PINS) := by
  have hlen10 : frames.length = 10 := hlen
  have h1 := validate_game_at_tenth frames hlen10 hbefore
  have h2 := validate_frame_tenth 9 (frame_at frames 9) (by decide)
  have h3 := validate_frame_tenth_cases 9 (frame_at frames 9) (by decide) hplayed
  have hcond : validate_frame 9 (frame_at frames 9) = none ↔
      ((0 ≤ (frame_at frames 9).first_ball ∧ (frame_at frames 9).first_ball ≤ 9) ∨
       ((frame_at frames 9).first_ball = 10 ∧ (frame_at frames 9).second_ball = 0 ∧
        (frame_at frames 9).third_ball = 0)) := by
    rw [h2]
    constructor
    · rintro ⟨_, h | h⟩
      · exact Or.inl ⟨h.1, by omega⟩
      · exact Or.inr h
    · rintro (h | h)
      · exact ⟨hplayed, Or.inl ⟨h.1, by omega⟩⟩
      · exact ⟨hplayed, Or.inr h⟩
  refine ⟨?_, ?_⟩
  · constructor
    · intro hv
      rcases h3 with h | h
      · exact hcond.1 h
      · rw [h1, h] at hv
        exact absurd hv (by decide)
    · intro hc
      rw [h1, hcond.2 hc]
      rfl
  · intro hn
    rcases h3 with h | h
    · exact absurd (hcond.1 h) hn
    · rw [h1, h]
      rfl

/-- C21 on three games: a tenth frame (3,12,7) is accepted, a tenth frame
(10,0,0) is accepted, and the tenth frame (10,10,10) gets `INVALID_PINS`. -/
theorem validate_game_tenth_verdict_witness :
    validate_game overfull_tenth_game = some NO_ERROR ∧
      validate_game lone_strike_tenth_game = some NO_ERROR ∧
      validate_game perfect_game = some INVALID_PINS :=
  ⟨(validate_game_tenth_verdict overfull_tenth_game (by decide) (by decide)
      (by decide)).1.2 (Or.inl (by decide)),
    (validate_game_tenth_verdict lone_strike_tenth_game (by decide) (by decide)
      (by decide)).1.2 (Or.inr (by decide)),
    (validate_game_tenth_verdict perfect_game (by decide) (by decide)
      (by decide)).2 (by decide)⟩

/-- The lookups of the scorer are checked ones: on an array of nine strikes the
strike branch of frame 7 reads `frames[9]`, which is outside, and the
embedded function returns `none`. -/
theorem calculate_game_scores_short_array :
    (List.replicate 9 mk_strike).length = 9 ∧
      calculate_game_scores (List.replicate 9 mk_strike) = none := by
  decide

/-- C22: on every ten-frame game each run of the loop body of
`calculate_game_scores`, at any index `i` in 0..9, finds every record it looks
up (frame `i`, frame `i+1` when `i ≤ 8`, frame `i+2` when `i ≤ 7`) and leaves a
ten-frame array, and the whole function returns a code and a ten-frame
array. -/
theorem calculate_game_scores_total (frames : List frame_results)
    (hlen : frames.length = MAX_FRAMES) :
    (∀ i, i < 10 → ∃ r, score_frame frames i = some r ∧ r.2.length = MAX_FRAMES) ∧
      ∃ e out, calculate_game_scores frames = some (e, out) ∧ out.length = MAX_FRAMES := by
  have hlen10 : frames.length = 10 := hlen
  refine ⟨?_, ?_⟩
  · intro i hi
    rw [score_frame_eq frames i hlen10 hi]
    split_ifs
    · exact ⟨_, rfl, hlen⟩
    · exact ⟨_, rfl, by simpa using hlen⟩
  · obtain ⟨e, out, _, hout, _, _, holen, _⟩ := calculate_game_scores_spec frames hlen10
    exact ⟨e, out, hout, holen⟩

/-- C22 on the perfect game, where every regular frame looks ahead: the scorer
returns a code and a ten-frame array. -/
theorem calculate_game_scores_total_witness :
    perfect_game.length = MAX_FRAMES ∧
      ∃ e out, calculate_game_scores perfect_game = some (e, out) ∧
        out.length = MAX_FRAMES :=
  ⟨by decide, (calculate_game_scores_total perfect_game (by decide)).2⟩

end Bowling
